import Mathlib

/-!
Shallow embedding of the ImageApp session/job workflow core.

The definitions below are translated from the TypeScript sources:
  - lib/sessionHelpers.ts   (Session store operations)
  - lib/dbHelpers.ts        (Job ledger operations)
  - pages/api/provider/callback.ts  (Callback Reconciler)
  - the chat webhook handler (idempotency ledger, dispatcher,
    session lifecycle controller: /start, /cancel, image upload,
    the Done/Cancel/Tips button actions, startSessionGeneration)

The relational store is modelled as an explicit record of rows (Db);
each helper becomes a pure function on Db.  External collaborators
(chat transport, object storage, generation provider, HMAC library)
are modelled as effects in an output list or as environment inputs.
-/

/-- Session lifecycle states, from sessionHelpers.ts (SessionStatus). -/
inductive SessionStatus
| collecting | processing | done | failed | cancelled
deriving DecidableEq, Repr

/-- Job ledger states, from dbHelpers.ts (JobStatus). -/
inductive JobStatus
| pending | running | success | failed
deriving DecidableEq, Repr

/-- One element of a session's image list (SessionImageInput in
sessionHelpers.ts).  Timestamps are carried as opaque strings. -/
structure SessionImageInput where
  telegram_file_id : String
  telegram_message_id : String
  storage_bucket : Option String
  storage_path : Option String
  original_filename : Option String
  added_at : String
deriving DecidableEq, Repr

/-- A session row (Session in sessionHelpers.ts).  The created/updated
timestamps are not modelled; no claim mentions them. -/
structure Session where
  id : String
  telegram_chat_id : String
  telegram_user_id : Option String
  status : SessionStatus
  image_input : List SessionImageInput
  prompt : Option String
  aspect_ratio : Option String
  resolution : Option String
  output_format : Option String
  job_id : Option String
  error_message : Option String
deriving DecidableEq, Repr

/-- The provider callback body (the fields the reconciler reads:
status, output, error, and the provider id echoed into metadata). -/
structure CbPayload where
  status : String
  outputSingle : Option String
  outputList : Option (List String)
  error : Option String
  provider_id : Option String
deriving DecidableEq, Repr

/-- A job row (JobRow in dbHelpers.ts).  `input` keeps the fields the
webhook writes; `output` stores the echoed callback payload. -/
structure JobRow where
  id : String
  user_id : Option String
  telegram_chat_id : String
  telegram_message_id : Option String
  provider : Option String
  provider_job_id : Option String
  status : JobStatus
  attempts : Nat
  input_session_id : Option String
  input_image_count : Nat
  input_prompt : Option String
  output : Option CbPayload
  result_url : Option String
  error : Option String
  webhook_secret : Option String
deriving DecidableEq, Repr

/-- The shared relational store: sessions, jobs, the processed-updates
idempotency ledger, and the image rows written by storeResult
(recorded as (job id, stored url) pairs). -/
structure Db where
  sessions : List Session
  jobs : List JobRow
  processed_updates : List Nat
  stored_results : List (String × String)
deriving DecidableEq, Repr

/-- String.toLower of the standard library, expressed over the
character list so that proofs can evaluate it. -/
def lowerString (s : String) : String := ⟨s.data.map Char.toLower⟩

/-- String.startsWith, expressed over the character list. -/
def strStarts (s p : String) : Bool := p.data.isPrefixOf s.data

/-- String.endsWith, expressed over the character list. -/
def strEnds (s p : String) : Bool := p.data.isSuffixOf s.data

def isSpaceChar (c : Char) : Bool :=
  decide (c = ' ') || decide (c = '\t') || decide (c = '\n') || decide (c = '\r')

/-- String.trim, expressed over the character list. -/
def strTrim (s : String) : String :=
  ⟨((s.data.dropWhile fun c => isSpaceChar c).reverse.dropWhile
      fun c => isSpaceChar c).reverse⟩

/-- JavaScript String.prototype.includes, expressed over the character
list. -/
def strContainsSub (s pat : String) : Bool :=
  s.data.tails.any fun t => pat.data.isPrefixOf t

/-- The final component of a slash-separated path (the model of
file_path.split('/') followed by taking the last element). -/
def lastPathComponent (s : String) : String :=
  ⟨(s.data.reverse.takeWhile fun c => !(decide (c = '/'))).reverse⟩

/-- JavaScript Number(...) coercion restricted to the handler use
`!isNaN(Number(messageId))` followed by Number(messageId): models a
decimal-digit string as a number and anything else as NaN. -/
def natOfString? (s : String) : Option Nat :=
  if !s.data.isEmpty && s.data.all (fun c => decide (48 ≤ c.toNat ∧ c.toNat ≤ 57)) then
    some (s.data.foldl (fun a c => a * 10 + (c.toNat - 48)) 0)
  else none

/-- JavaScript string truthiness for optional string fields:
undefined / null / the empty string are falsy. -/
def strTruthy : Option String → Bool
| none => false
| some s => !(s = "")

/-- A session is active iff its status is collecting or processing. -/
def isActiveStatus : SessionStatus → Bool
| .collecting => true
| .processing => true
| _ => false

/-- A session status is terminal iff it is done, failed or cancelled. -/
def isTerminalStatus : SessionStatus → Bool
| .done => true
| .failed => true
| .cancelled => true
| _ => false

/-- sessionHelpers.getActiveSession: the chat's first session whose
status is collecting or processing.  (The source orders rows by
updated_at descending and takes one; the list models that order.) -/
def getActiveSession (db : Db) (chatId : String) : Option Session :=
  db.sessions.find? fun s =>
    decide (s.telegram_chat_id = chatId) && isActiveStatus s.status

/-- sessionHelpers.getSessionById. -/
def getSessionById (db : Db) (sessionId : String) : Option Session :=
  db.sessions.find? fun s => decide (s.id = sessionId)

/-- sessionHelpers.getSessionByJobId: first session whose job_id equals
the given job id (the source uses .eq on the job_id column). -/
def getSessionByJobId (db : Db) (jobId : String) : Option Session :=
  db.sessions.find? fun s => decide (s.job_id = some jobId)

/-- sessionHelpers.createSession: inserts a fresh row with status
collecting and an empty image list.  The database-generated UUID is
provided by the caller (sessionId). -/
def createSessionDb (db : Db) (sessionId chatId : String)
    (userId : Option String) : Db × Session :=
  let s : Session :=
    { id := sessionId
      telegram_chat_id := chatId
      telegram_user_id := userId
      status := .collecting
      image_input := []
      prompt := none
      aspect_ratio := none
      resolution := none
      output_format := none
      job_id := none
      error_message := none }
  ({ db with sessions := db.sessions ++ [s] }, s)

/-- Apply `f` to every session row whose id is `sessionId` (the model of
a supabase .update().eq('id', sessionId)). -/
def mapSessionRow (db : Db) (sessionId : String) (f : Session → Session) : Db :=
  { db with sessions :=
      db.sessions.map fun s => if s.id = sessionId then f s else s }

/-- The row patch built by sessionHelpers.updateSessionStatus: the new
status always, and the error_message / job_id / prompt columns only
when the corresponding option is provided (truthy in the source). -/
def patchSession (status : SessionStatus)
    (errorMessage jobId promptOpt : Option String) (s : Session) : Session :=
  { s with
    status := status
    error_message := if strTruthy errorMessage then errorMessage else s.error_message
    job_id := if strTruthy jobId then jobId else s.job_id
    prompt := if strTruthy promptOpt then promptOpt else s.prompt }

/-- sessionHelpers.updateSessionStatus as a store operation. -/
def updateSessionStatusDb (db : Db) (sessionId : String)
    (status : SessionStatus) (errorMessage jobId promptOpt : Option String) : Db :=
  mapSessionRow db sessionId (patchSession status errorMessage jobId promptOpt)

/-- sessionHelpers.addImageToSession: fetch the row, silently return it
unchanged when the telegram_message_id is already present, throw when
the list already holds 14 images, otherwise append. -/
def addImageToSessionDb (db : Db) (sessionId : String)
    (imageInput : SessionImageInput) : Except String (Db × Session) :=
  match getSessionById db sessionId with
  | none => .error "Failed to fetch session"
  | some session =>
    let currentImages := session.image_input
    let isDuplicate := currentImages.any fun img =>
      decide (img.telegram_message_id = imageInput.telegram_message_id)
    if isDuplicate then
      .ok (db, session)
    else if currentImages.length ≥ 14 then
      .error "Maximum 14 images allowed per session"
    else
      let updated := { session with image_input := currentImages ++ [imageInput] }
      .ok (mapSessionRow db sessionId fun s =>
            { s with image_input := s.image_input ++ [imageInput] },
          updated)

/-- dbHelpers.getJobById. -/
def getJobById (db : Db) (jobId : String) : Option JobRow :=
  db.jobs.find? fun j => decide (j.id = jobId)

/-- Apply `f` to every job row whose id is `jobId`. -/
def mapJobRow (db : Db) (jobId : String) (f : JobRow → JobRow) : Db :=
  { db with jobs := db.jobs.map fun j => if j.id = jobId then f j else j }

/-- dbHelpers.createJob: inserts a pending job with attempts 0.  The
database-generated UUID is provided by the caller (jobId). -/
def createJobDb (db : Db) (jobId : String) (userId : Option String)
    (chatId : String) (webhookSecret : Option String)
    (sessionId : Option String) (imageCount : Nat)
    (promptText : Option String) : Db × JobRow :=
  let j : JobRow :=
    { id := jobId
      user_id := userId
      telegram_chat_id := chatId
      telegram_message_id := none
      provider := none
      provider_job_id := none
      status := .pending
      attempts := 0
      input_session_id := sessionId
      input_image_count := imageCount
      input_prompt := promptText
      output := none
      result_url := none
      error := none
      webhook_secret := webhookSecret }
  ({ db with jobs := db.jobs ++ [j] }, j)

/-- dbHelpers.markJobRunning: status running plus the provider job id. -/
def markJobRunningDb (db : Db) (jobId : String)
    (providerJobId : Option String) : Db :=
  mapJobRow db jobId fun j =>
    { j with status := .running, provider_job_id := providerJobId }

/-- dbHelpers.updateJob restricted to the provider column (the only
patch the core issues besides the mark* helpers). -/
def setJobProviderDb (db : Db) (jobId : String) (provider : String) : Db :=
  mapJobRow db jobId fun j => { j with provider := some provider }

/-- dbHelpers.markJobSuccess: refetches the row first; when it is
already success the existing row is returned and nothing is written
(the idempotent short-circuit), otherwise status/result_url/output are
updated.  The job-not-found throw is unreachable from the reconciler,
which resolved the job before calling this. -/
def markJobSuccessDb (db : Db) (jobId : String) (resultUrl : String)
    (output : Option CbPayload) : Db :=
  match getJobById db jobId with
  | none => db
  | some existing =>
    if existing.status = .success then db
    else
      mapJobRow db jobId fun j =>
        { j with
          status := .success
          result_url := some resultUrl
          output := match output with
            | some o => some o
            | none => existing.output }

/-- dbHelpers.markJobFailed: unconditionally sets status failed and the
error text (no refetch and no status guard in the source). -/
def markJobFailedDb (db : Db) (jobId : String) (errorMessage : String) : Db :=
  mapJobRow db jobId fun j =>
    { j with status := .failed, error := some errorMessage }

/-- storeResult (lib/storeResult.ts), abstracted to its contract at the
reconciler boundary: persist the fetched provider output under a
result-scoped path for the job and hand back a signed URL.  The image
row is recorded in stored_results. -/
def storeResultDb (db : Db) (jobId : String) (outputUrl : String) :
    Db × String :=
  let signedUrl := "signed:" ++ jobId ++ ":" ++ outputUrl
  ({ db with stored_results := db.stored_results ++ [(jobId, signedUrl)] },
   signedUrl)

/-- One hex digit. -/
def hexDigit (n : Nat) : Char :=
  "0123456789abcdef".toList.getD (n % 16) '0'

/-- Stand-in for the HMAC-SHA256 hex digest of the node crypto library
(an external collaborator).  The reconciler only ever compares the
digest for equality and byte length, so any fixed deterministic
64-hex-character function of (secret, message) is a faithful model. -/
def hmacHexStandIn (secret msg : String) : String :=
  let seed := (secret ++ "|" ++ msg).toList.foldl
    (fun a c => (a * 131 + c.toNat) % 1000000007) 7
  String.mk ((List.range 64).map fun i => hexDigit ((seed + i * 2654435761) % 16))

/-- The signature the reconciler expects in the x-webhook-signature
header: "sha256=" followed by the hex HMAC of the job id under the
job's per-job secret (callback.ts, verifyWebhookSignature). -/
def expectedSignature (secret jobId : String) : String :=
  "sha256=" ++ hmacHexStandIn secret jobId

/-- callback.ts verifyWebhookSignature.  A missing/empty secret or
header yields false.  crypto.timingSafeEqual throws when the two
buffers have different byte lengths, which escapes to the handler's
outer catch; that throw is modelled as the .error case. -/
def verifyWebhookSignature (jobId : String)
    (webhookSecret headerSignature : Option String) :
    Except String Bool :=
  if !(strTruthy webhookSecret) || !(strTruthy headerSignature) then
    .ok false
  else
    match webhookSecret, headerSignature with
    | some secret, some header =>
      let expectedSig := expectedSignature secret jobId
      if expectedSig.utf8ByteSize = header.utf8ByteSize then
        .ok (decide (expectedSig = header))
      else
        .error "timingSafeEqual: buffer length mismatch"
    | _, _ => .ok false

/-- Outbound side effects of a handler invocation (calls on the chat
transport, object storage and the generation provider). -/
inductive Effect
| sendMessage (chatId text : String)
| sendPhoto (chatId url caption : String)
| editText (chatId : String) (messageId : Nat) (text : String)
| editReplyMarkup (chatId : String) (messageId : Nat)
| answerCallback (callbackId text : String)
| storageUpload (bucket path : String)
| providerSubmit (jobId : String) (imageCount : Nat)
deriving DecidableEq, Repr

/-- Result of one HTTP handler invocation: the store afterwards, the
outbound effects in order, and the HTTP status code. -/
structure HandlerResult where
  db : Db
  effects : List Effect
  code : Nat
deriving DecidableEq, Repr

/-- User-visible text constants of the callback reconciler. -/
def failNoticeText : String :=
  "Sorry - processing failed. Please try again with /start."

def noOutputText : String :=
  "Sorry - no image output received. Please try again."

def internalErrorText : String :=
  "Sorry - something went wrong processing your image."

def doneEditText : String := "Done"

def defaultCaption : String := "Here is your photo."

def multiCaption (n : Nat) : String :=
  "Done. This is your professional studio family portrait from " ++
    toString n ++ " photos. Want a different style? Send /start to begin again."

def singleCaption : String :=
  "Done. This is your professional studio portrait. Want to try with more photos? Send /start to begin again."

/-- callback.ts: extract the single output URL from the provider
payload: a plain string, or the first element of a non-empty array. -/
def extractOutputUrl (p : CbPayload) : Option String :=
  match p.outputSingle with
  | some s => some s
  | none =>
    match p.outputList with
    | some (x :: _) => some x
    | _ => none

/-- callback.ts: `error || "Provider status: <status>"` with JavaScript
falsiness (null and the empty string both fall back). -/
def cbErrorMessage (p : CbPayload) : String :=
  match p.error with
  | some e => if e = "" then "Provider status: " ++ p.status else e
  | none => "Provider status: " ++ p.status

/-- The Callback Reconciler (pages/api/provider/callback.ts handler),
after body parsing: method gate, job resolution, success idempotency
short-circuit, signature gate (skipped when the job has no stored
secret), then the terminal-status interpretation.  The only modelled
exception is the timingSafeEqual length throw, which the outer catch
answers with a generic user message and HTTP 200. -/
def callbackHandler (db : Db) (method : String) (jobIdQ : Option String)
    (headerSignature : Option String) (payload : Option CbPayload) :
    HandlerResult :=
  if method ≠ "POST" then ⟨db, [], 405⟩
  else if !(strTruthy jobIdQ) then ⟨db, [], 200⟩
  else
    match jobIdQ, payload with
    | _, none => ⟨db, [], 400⟩
    | none, _ => ⟨db, [], 200⟩
    | some jobId, some p =>
      match getJobById db jobId with
      | none => ⟨db, [], 200⟩
      | some job =>
        if job.status = .success then ⟨db, [], 200⟩
        else
          let chatId := job.telegram_chat_id
          let sigGate : Option HandlerResult :=
            if strTruthy job.webhook_secret then
              match verifyWebhookSignature jobId job.webhook_secret headerSignature with
              | .error _ =>
                some ⟨db, [Effect.sendMessage chatId internalErrorText], 200⟩
              | .ok false => some ⟨db, [], 401⟩
              | .ok true => none
            else none
          match sigGate with
          | some r => r
          | none =>
            if p.status ≠ "succeeded" ∧ p.status ≠ "failed" ∧
                p.status ≠ "canceled" then ⟨db, [], 200⟩
            else if p.status = "failed" ∨ p.status = "canceled" then
              let errorMessage := cbErrorMessage p
              let db1 := markJobFailedDb db jobId errorMessage
              let db2 :=
                match getSessionByJobId db1 jobId with
                | some s =>
                  updateSessionStatusDb db1 s.id .failed (some errorMessage) none none
                | none => db1
              ⟨db2, [Effect.sendMessage chatId failNoticeText], 200⟩
            else
              match extractOutputUrl p with
              | none =>
                let db1 := markJobFailedDb db jobId "No output URL from provider"
                ⟨db1, [Effect.sendMessage chatId noOutputText], 200⟩
              | some outputUrl =>
                let res := storeResultDb db jobId outputUrl
                let db1 := res.1
                let signedUrl := res.2
                let db2 := markJobSuccessDb db1 jobId signedUrl (some p)
                let db3 :=
                  match getSessionByJobId db2 jobId with
                  | some s => updateSessionStatusDb db2 s.id .done none none none
                  | none => db2
                let editEffects :=
                  match job.telegram_message_id with
                  | some m =>
                    match natOfString? m with
                    | some mid => [Effect.editText chatId mid doneEditText]
                    | none => []
                  | none => []
                let captionText :=
                  match getSessionByJobId db3 jobId with
                  | some s =>
                    if s.image_input.length > 1 then multiCaption s.image_input.length
                    else if s.image_input.length = 1 then singleCaption
                    else defaultCaption
                  | none => defaultCaption
                ⟨db3, editEffects ++ [Effect.sendPhoto chatId signedUrl captionText], 200⟩

/-- A Telegram photo rendition (only the file id is read). -/
structure TgPhotoSize where
  file_id : String
deriving DecidableEq, Repr

/-- A Telegram document attachment (the fields the classifier reads). -/
structure TgDocument where
  file_id : String
  mime_type : Option String
  file_name : Option String
deriving DecidableEq, Repr

/-- A Telegram message (the fields the webhook handler reads). -/
structure TgMessage where
  message_id : Nat
  chat_id : Option Nat
  from_id : Option Nat
  text : Option String
  photo : Option (List TgPhotoSize)
  document : Option TgDocument
deriving DecidableEq, Repr

/-- A Telegram callback query (button press).  `id` is checked for
JavaScript truthiness, so the empty string models a falsy id. -/
structure TgCallbackQuery where
  id : String
  chat_id : Option Nat
  message_id : Option Nat
  from_id : Option Nat
  data : Option String
deriving DecidableEq, Repr

/-- A Telegram update envelope.  update_id 0 models a falsy/absent id
(the handler guards every idempotency access with `if (updateId)`). -/
structure TgUpdate where
  update_id : Nat
  message : Option TgMessage
  edited_message : Option TgMessage
  callback_query : Option TgCallbackQuery
deriving DecidableEq, Repr

/-- The normalized image-input shape both attachment kinds reduce to. -/
inductive ImageKind
| photo | document
deriving DecidableEq, Repr

structure ImageInput where
  kind : ImageKind
  fileId : String
deriving DecidableEq, Repr

/-- The webhook's image-detection classifier (extractImageInput): a
non-empty photo array yields the largest rendition (its last element);
otherwise a document is accepted when its lower-cased mime type starts
with "image/" or its lower-cased file name matches the extension
regular expression (jpg|jpeg|png|webp|gif anchored at the end). -/
def extractImageInput : Option TgMessage → Option ImageInput
| none => none
| some message =>
  match message.photo with
  | some photos =>
    match photos.getLast? with
    | some largestPhoto => some ⟨.photo, largestPhoto.file_id⟩
    | none => extractFromDocument message.document
  | none => extractFromDocument message.document
where
  extractFromDocument : Option TgDocument → Option ImageInput
  | none => none
  | some doc =>
    let mimeType := (doc.mime_type.map lowerString).getD ""
    let fileName := (doc.file_name.map lowerString).getD ""
    if strStarts mimeType "image/" then
      some ⟨.document, doc.file_id⟩
    else if strEnds fileName ".jpg" || strEnds fileName ".jpeg" ||
        strEnds fileName ".png" || strEnds fileName ".webp" ||
        strEnds fileName ".gif" then
      some ⟨.document, doc.file_id⟩
    else
      none

/-- Modelled from the spec: the image-detection contract as the claim
states it - a platform-native photo attachment (largest rendition,
last array element), or a document whose declared media type starts
with "image/" or whose filename extension is one of exactly jpg, jpeg,
png, webp; otherwise no image. -/
def claimedImageDetect : Option TgMessage → Option ImageInput
| none => none
| some message =>
  match message.photo with
  | some (p :: ps) => some ⟨.photo, ((p :: ps).getLast (by simp)).file_id⟩
  | _ =>
    match message.document with
    | none => none
    | some doc =>
      let mimeType := (doc.mime_type.map lowerString).getD ""
      let fileName := (doc.file_name.map lowerString).getD ""
      if strStarts mimeType "image/" ||
          [".jpg", ".jpeg", ".png", ".webp"].any (fun e => strEnds fileName e) then
        some ⟨.document, doc.file_id⟩
      else none

/-- The claimed detection contract amended by what the code forces: the
extension allow-list also contains gif. -/
def claimedImageDetectAmended : Option TgMessage → Option ImageInput
| none => none
| some message =>
  match message.photo with
  | some (p :: ps) => some ⟨.photo, ((p :: ps).getLast (by simp)).file_id⟩
  | _ =>
    match message.document with
    | none => none
    | some doc =>
      let mimeType := (doc.mime_type.map lowerString).getD ""
      let fileName := (doc.file_name.map lowerString).getD ""
      if strStarts mimeType "image/" ||
          [".jpg", ".jpeg", ".png", ".webp", ".gif"].any (fun e => strEnds fileName e) then
        some ⟨.document, doc.file_id⟩
      else none

/-- Outcome of the bounded Telegram file download (external RPC): the
downloaded byte count and the transport file path, a distinct timeout,
or another transport failure. -/
inductive DownloadOutcome
| ok (size : Nat) (file_path : Option String)
| timeout
| fail (msg : String)
deriving DecidableEq, Repr

/-- Environment of one webhook invocation: deployment configuration,
request header, the in-memory rate limiter verdict, the outcomes of
the external RPCs, and the identifiers/secrets the store or crypto
library would generate. -/
structure WebhookEnv where
  production : Bool
  secretToken : Option String
  headerToken : Option String
  rateAllowed : Bool
  download : DownloadOutcome
  uploadOk : Bool
  providerOk : Bool
  providerJobId : String
  newJobId : String
  newSessionId : String
  newSecret : String
  now : String
deriving DecidableEq, Repr

/-- lib/validation.ts FILE_SIZE_LIMITS.MAX_IMAGE_SIZE (20 MB). -/
def maxImageSize : Nat := 20 * 1024 * 1024

/-- promptBuilder.buildStudioPortraitPrompt with no custom
instructions (the webhook passes only the image count). -/
def buildStudioPortraitPrompt (imageCount : Nat) : String :=
  let subject :=
    if imageCount = 1 then "of one person"
    else "of " ++ toString imageCount ++ " family members together"
  String.intercalate ", "
    ["Professional studio family portrait photograph", subject,
     "soft diffused studio lighting with natural skin tones",
     "neutral background with subtle gradient",
     "camera at eye level", "sharp focus on faces",
     "natural expressions and poses", "cohesive composition",
     "photorealistic quality",
     "high resolution professional photography"] ++ "."

/-- Idempotency Ledger read (isUpdateProcessed). -/
def isUpdateProcessed (db : Db) (updateId : Nat) : Bool :=
  db.processed_updates.contains updateId

/-- Idempotency Ledger write (markUpdateProcessed): insert-or-ignore on
the unique update_id key. -/
def markUpdateProcessedDb (db : Db) (updateId : Nat) : Db :=
  if db.processed_updates.contains updateId then db
  else { db with processed_updates := db.processed_updates ++ [updateId] }

/-- User-visible text constants of the webhook handler. -/
def slowDownText : String := "Please slow down. Try again in a minute."

def welcomeText : String :=
  "Welcome! Send me 1-14 photos of family members. One person per photo is fine. Best quality: send as File / Document. When finished, press Done. I will create a professional studio family portrait."

def guidanceText : String :=
  "Please send photos or images. Send /start for instructions."

def nothingToCancelText : String :=
  "No active session to cancel. Send /start to begin."

def cancelledText : String :=
  "Session cancelled. Send /start to begin a new one."

def startingNewSessionText : String :=
  "Starting a new session. Send more photos or press Done when ready."

def alreadyProcessingText : String :=
  "Current session is already processing. Please wait or send /start for a new session."

def downloadTimeoutText : String :=
  "Download took too long. Please try a smaller file or better connection."

def tooLargeText : String :=
  "Image too large. Please send an image smaller than 20MB."

def maxImagesText : String :=
  "Maximum 14 photos reached. Press Done to create your portrait."

def badFileText : String :=
  "I could not process that file. Please send a JPG or PNG photo."

def noActiveSessionText : String := "No active session. Send /start to begin."

def needPhotoText : String := "Please send at least one photo first."

def alreadyProcessingCallbackText : String := "Already processing your images..."

def noActiveCancelText : String := "No active session to cancel."

def sessionCancelledCallbackText : String := "Session cancelled."

def creatingText (n : Nat) : String :=
  "Creating your professional studio family portrait from " ++ toString n ++
    " photos... This may take a few minutes. I will send the result here when ready."

def processingCountText (n : Nat) : String :=
  "Processing " ++ toString n ++ " images..."

def badImagesErrorText : String :=
  "I could not process the images. Please resend them as File/Document and try again."

def genericStartFailText : String :=
  "I could not create the portrait. Please try again in a few minutes."

def tipsText : String :=
  "Tips for best results: send clear, well-lit photos; one person per photo works great; send as File/Document for highest quality; include all family members you want in the portrait; up to 14 photos total. Press Done when ready!"

/-- The webhook's filename/extension fallback when downloading: the
basename is the last path component; the extension is the match of the
regular expression for a final dot followed by non-dot characters,
defaulting to ".jpg". -/
def extMatchOf (basename : String) : Option String :=
  let rev := basename.toList.reverse
  let tail := rev.takeWhile (fun c => c ≠ '.')
  if tail.length = 0 then none
  else if tail.length = rev.length then none
  else some (String.mk ('.' :: tail.reverse))

/-- Filename and extension derived from the transport file path
(handleImageUpload lines choosing filename/ext, default original.jpg). -/
def filenameAndExt (filePath : Option String) : String × String :=
  match filePath with
  | none => ("original.jpg", ".jpg")
  | some fp =>
    let basename := lastPathComponent fp
    if basename = "" then ("original.jpg", ".jpg")
    else (basename, (extMatchOf basename).getD ".jpg")

/-- startSessionGeneration: re-reads the active session, skips entirely
when the session already has a job_id (the idempotency boundary),
otherwise builds the prompt, creates exactly one pending job carrying
a fresh per-job secret, stores the job id and prompt on the session,
filters the images to those with a non-blank storage path, fails when
none remain, and submits to the provider (which marks the job running
with the provider's id and sets the provider column).  The returned
Option String is the thrown error message, if any; mutations made
before a throw are kept, as in the source. -/
def startSessionGeneration (db : Db) (env : WebhookEnv)
    (sessionId chatId : String) (userId : Option String) :
    Db × List Effect × Option String :=
  match getActiveSession db chatId with
  | none => (db, [], some "Session not found or changed")
  | some session =>
    if session.id ≠ sessionId then (db, [], some "Session not found or changed")
    else if strTruthy session.job_id then (db, [], none)
    else
      let promptText := buildStudioPortraitPrompt session.image_input.length
      let res := createJobDb db env.newJobId userId chatId
        (some env.newSecret) (some sessionId) session.image_input.length
        (some promptText)
      let db1 := res.1
      let job := res.2
      let db2 := updateSessionStatusDb db1 sessionId .processing
        none (some job.id) (some promptText)
      let inputImages := session.image_input.filter fun img =>
        match img.storage_path with
        | some p => !(strTrim p = "")
        | none => false
      if inputImages.length = 0 then
        let db3 := updateSessionStatusDb db2 sessionId .failed
          (some "No valid images with storage paths") none none
        (db3, [], some "No valid images found. All images are missing storage paths.")
      else if env.providerOk then
        let db3 := markJobRunningDb db2 job.id (some env.providerJobId)
        let db4 := setJobProviderDb db3 job.id "replicate"
        (db4, [Effect.providerSubmit job.id inputImages.length], none)
      else
        (db2, [], some "provider request failed")

/-- The Done button action (handleSessionDone): resolve the active
session, require at least one image, short-circuit when the session is
already processing, otherwise transition to processing, clear the
keyboard, acknowledge, announce, and start generation; a generation
error marks the session failed and notifies with a message chosen on
whether the error text mentions storage paths. -/
def handleSessionDone (db : Db) (env : WebhookEnv) (chatId : Nat)
    (userId : Option Nat) (messageId : Option Nat) (callbackId : String) :
    Db × List Effect :=
  let chat := toString chatId
  match getActiveSession db chat with
  | none => (db, [Effect.answerCallback callbackId noActiveSessionText])
  | some session =>
    let imageCount := session.image_input.length
    if imageCount = 0 then
      (db, [Effect.answerCallback callbackId needPhotoText])
    else if session.status = .processing then
      (db, [Effect.answerCallback callbackId alreadyProcessingCallbackText])
    else
      let db1 := updateSessionStatusDb db session.id .processing none none none
      let keyboardEffects :=
        match messageId with
        | some mid => [Effect.editReplyMarkup chat mid]
        | none => []
      let announceEffects :=
        keyboardEffects ++
        [Effect.answerCallback callbackId (processingCountText imageCount),
         Effect.sendMessage chat (creatingText imageCount)]
      let gen := startSessionGeneration db1 env session.id chat
        (userId.map toString)
      match gen.2.2 with
      | none => (gen.1, announceEffects ++ gen.2.1)
      | some errMsg =>
        let db2 := updateSessionStatusDb gen.1 session.id .failed
          (some errMsg) none none
        let failText :=
          if strContainsSub errMsg "storage paths" then badImagesErrorText
          else genericStartFailText
        (db2, announceEffects ++ gen.2.1 ++ [Effect.sendMessage chat failText])

/-- The Cancel button action (handleSessionCancel). -/
def handleSessionCancel (db : Db) (chatId : Nat) (messageId : Option Nat)
    (callbackId : String) : Db × List Effect :=
  let chat := toString chatId
  match getActiveSession db chat with
  | none => (db, [Effect.answerCallback callbackId noActiveCancelText])
  | some session =>
    let db1 := updateSessionStatusDb db session.id .cancelled none none none
    let keyboardEffects :=
      match messageId with
      | some mid => [Effect.editReplyMarkup chat mid]
      | none => []
    (db1, keyboardEffects ++
      [Effect.answerCallback callbackId sessionCancelledCallbackText,
       Effect.sendMessage chat cancelledText])

/-- The Tips button action (handleSessionTips): pure read. -/
def handleSessionTips (db : Db) (chatId : Nat) (callbackId : String) :
    Db × List Effect :=
  (db, [Effect.answerCallback callbackId "",
        Effect.sendMessage (toString chatId) tipsText])

/-- The /start command handler: sends the welcome message only and
creates no session. -/
def handleStartCommand (db : Db) (chatId : Nat) : Db × List Effect :=
  (db, [Effect.sendMessage (toString chatId) welcomeText])

/-- The /cancel command handler. -/
def handleCancelCommand (db : Db) (chatId : Nat) : Db × List Effect :=
  let chat := toString chatId
  match getActiveSession db chat with
  | none => (db, [Effect.sendMessage chat nothingToCancelText])
  | some session =>
    let db1 := updateSessionStatusDb db session.id .cancelled none none none
    (db1, [Effect.sendMessage chat cancelledText])

/-- The image ingest handler (handleImageUpload): resolve or create the
chat's session, reject when not collecting, download with the bounded
timeout, enforce the 20 MB limit, upload to a session-scoped path,
append the image reference (idempotent on the message id), and
acknowledge with the running count; errors choose the distinct
timeout / max-images / generic notices. -/
def handleImageUpload (db : Db) (env : WebhookEnv) (chatId : Nat)
    (userId : Option String) (messageId : Nat) (imageInput : ImageInput) :
    Db × List Effect :=
  let chat := toString chatId
  let resolved :=
    match getActiveSession db chat with
    | some s => (db, ([] : List Effect), s)
    | none =>
      let created := createSessionDb db env.newSessionId chat userId
      (created.1, [Effect.sendMessage chat startingNewSessionText], created.2)
  let db0 := resolved.1
  let preEffects := resolved.2.1
  let session := resolved.2.2
  if session.status ≠ .collecting then
    (db0, preEffects ++ [Effect.sendMessage chat alreadyProcessingText])
  else
    match env.download with
    | .timeout =>
      (db0, preEffects ++ [Effect.sendMessage chat downloadTimeoutText])
    | .fail _ =>
      (db0, preEffects ++ [Effect.sendMessage chat badFileText])
    | .ok size filePath =>
      if size > maxImageSize then
        (db0, preEffects ++ [Effect.sendMessage chat tooLargeText])
      else
        let fe := filenameAndExt filePath
        let objectPath := "sessions/" ++ session.id ++ "/input_" ++
          toString (session.image_input.length + 1) ++ fe.2
        if !env.uploadOk then
          (db0, preEffects ++ [Effect.sendMessage chat badFileText])
        else
          let uploadEffects := [Effect.storageUpload "uploads" objectPath]
          let sessionImage : SessionImageInput :=
            { telegram_file_id := imageInput.fileId
              telegram_message_id := toString messageId
              storage_bucket := some "uploads"
              storage_path := some objectPath
              original_filename := some fe.1
              added_at := env.now }
          match addImageToSessionDb db0 session.id sessionImage with
          | .error e =>
            let failText :=
              if strContainsSub e "Maximum 14 images" then maxImagesText
              else badFileText
            (db0, preEffects ++ uploadEffects ++ [Effect.sendMessage chat failText])
          | .ok res =>
            let imageCount := res.2.image_input.length
            let confirmText :=
              match imageInput.kind with
              | .document => "Got it (" ++ toString imageCount ++
                  " images). Send more photos or press Done."
              | .photo => "Added (" ++ toString imageCount ++
                  "). For best quality, send as File/Document. Press Done when ready."
            (res.1, preEffects ++ uploadEffects ++
              [Effect.sendMessage chat confirmText])

/-- The button-press dispatcher (handleCallbackQuery): requires a chat
id and a truthy data payload, then routes on the callback data. -/
def handleCallbackQuery (db : Db) (env : WebhookEnv)
    (q : TgCallbackQuery) : Db × List Effect :=
  match q.chat_id with
  | none => (db, [])
  | some chatId =>
    if !(strTruthy q.data) then (db, [])
    else if q.data = some "session:done" then
      handleSessionDone db env chatId q.from_id q.message_id q.id
    else if q.data = some "session:cancel" then
      handleSessionCancel db chatId q.message_id q.id
    else if q.data = some "session:tips" then
      handleSessionTips db chatId q.id
    else (db, [])

/-- The message arm of the dispatcher: rate limit, /start, /cancel,
image detection, or the generic guidance reply for anything else. -/
def messageArm (db : Db) (env : WebhookEnv) (message : Option TgMessage)
    (chatIdOpt : Option Nat) (userIdOpt : Option Nat) : HandlerResult :=
  match message, chatIdOpt with
  | some m, some chatId =>
    if !env.rateAllowed then
      ⟨db, [Effect.sendMessage (toString chatId) slowDownText], 200⟩
    else
      let messageText := (m.text.map strTrim).getD ""
      if strStarts messageText "/start" then
        let r := handleStartCommand db chatId
        ⟨r.1, r.2, 200⟩
      else if strStarts messageText "/cancel" then
        let r := handleCancelCommand db chatId
        ⟨r.1, r.2, 200⟩
      else
        match extractImageInput (some m) with
        | some imageInput =>
          let r := handleImageUpload db env chatId
            (userIdOpt.map toString) m.message_id imageInput
          ⟨r.1, r.2, 200⟩
        | none =>
          ⟨db, [Effect.sendMessage (toString chatId) guidanceText], 200⟩
  | _, _ => ⟨db, [], 200⟩

/-- The inbound chat webhook handler: method gate, shared-secret
authentication (fail closed on production misconfiguration), the
idempotency-ledger short-circuit, early marking of the update as
processed, and the strict dispatcher (button press, message,
otherwise silently ignored). -/
def webhookHandler (db : Db) (env : WebhookEnv) (method : String)
    (u : TgUpdate) : HandlerResult :=
  if method ≠ "POST" then ⟨db, [], 405⟩
  else if env.production ∧ !(strTruthy env.secretToken) then ⟨db, [], 500⟩
  else if strTruthy env.secretToken ∧ env.headerToken ≠ env.secretToken then
    ⟨db, [], 401⟩
  else if u.update_id ≠ 0 ∧ isUpdateProcessed db u.update_id then
    ⟨db, [], 200⟩
  else
    let message := u.message <|> u.edited_message
    let chatIdOpt := (message.bind (·.chat_id)) <|>
      (u.callback_query.bind (·.chat_id))
    let userIdOpt := (message.bind (·.from_id)) <|>
      (u.callback_query.bind (·.from_id))
    let db1 := if u.update_id ≠ 0 then markUpdateProcessedDb db u.update_id
      else db
    match u.callback_query with
    | some q =>
      if q.id ≠ "" then
        let r := handleCallbackQuery db1 env q
        ⟨r.1, r.2, 200⟩
      else messageArm db1 env message chatIdOpt userIdOpt
    | none => messageArm db1 env message chatIdOpt userIdOpt

/-- Whether an effect is an outbound result-photo message. -/
def isSendPhotoEffect : Effect → Bool
| .sendPhoto _ _ _ => true
| _ => false

/-- Whether an effect is a provider submission. -/
def isProviderSubmitEffect : Effect → Bool
| .providerSubmit _ _ => true
| _ => false

/-- The webhook request passes the shared-secret authentication gates:
not a production deployment missing its secret, and the header matches
whenever a secret is configured. -/
def webhookAuthOk (env : WebhookEnv) : Prop :=
  ¬(env.production = true ∧ (!(strTruthy env.secretToken)) = true) ∧
  ¬(strTruthy env.secretToken = true ∧ env.headerToken ≠ env.secretToken)

/-! ## Concrete scenario inputs used by witnesses and counterexamples -/

def emptyDb : Db := ⟨[], [], [], []⟩

/-- A generic-file attachment whose filename ends in .gif and whose
mime type is absent. -/
def gifDoc : TgDocument :=
  { file_id := "f1", mime_type := none, file_name := some "scan.gif" }

def gifDocMessage : TgMessage :=
  { message_id := 5, chat_id := some 7, from_id := some 9, text := none,
    photo := none, document := some gifDoc }

def imgOne : SessionImageInput :=
  { telegram_file_id := "tf1", telegram_message_id := "100",
    storage_bucket := some "uploads",
    storage_path := some "sessions/s1/input_1.jpg",
    original_filename := some "a.jpg", added_at := "t1" }

/-- A collecting session for chat 7 holding one image. -/
def sessionOne : Session :=
  { id := "s1", telegram_chat_id := "7", telegram_user_id := some "9",
    status := .collecting, image_input := [imgOne], prompt := none,
    aspect_ratio := none, resolution := none, output_format := none,
    job_id := none, error_message := none }

def dbOne : Db := ⟨[sessionOne], [], [], []⟩

def envOne : WebhookEnv :=
  { production := false, secretToken := none, headerToken := none,
    rateAllowed := true, download := .ok 1000 (some "photos/file_1.jpg"),
    uploadOk := true, providerOk := true, providerJobId := "prov-1",
    newJobId := "job-1", newSessionId := "s-new", newSecret := "whsec",
    now := "t2" }

/-- A running job with a per-job secret. -/
def jobRun : JobRow :=
  { id := "j1", user_id := none, telegram_chat_id := "7",
    telegram_message_id := none, provider := some "replicate",
    provider_job_id := some "pj", status := .running, attempts := 0,
    input_session_id := some "s1", input_image_count := 1,
    input_prompt := none, output := none, result_url := none,
    error := none, webhook_secret := some "sec1" }

def dbJob : Db := ⟨[], [jobRun], [], []⟩

def succPayload : CbPayload :=
  { status := "succeeded",
    outputSingle := some "https://replicate.delivery/out.png",
    outputList := none, error := none, provider_id := some "pj" }

def failedPayload : CbPayload :=
  { status := "failed", outputSingle := none, outputList := none,
    error := some "boom", provider_id := none }

/-- A job already marked failed, with no stored secret. -/
def jobFailedRow : JobRow :=
  { id := "j4", user_id := none, telegram_chat_id := "7",
    telegram_message_id := none, provider := some "replicate",
    provider_job_id := some "pj4", status := .failed, attempts := 0,
    input_session_id := none, input_image_count := 1,
    input_prompt := none, output := none, result_url := none,
    error := some "earlier terminal callback", webhook_secret := none }

def dbC4 : Db := ⟨[], [jobFailedRow], [], []⟩

/-- A job already marked success, with a stored secret. -/
def jobSuccessRow : JobRow :=
  { id := "j5", user_id := none, telegram_chat_id := "7",
    telegram_message_id := none, provider := some "replicate",
    provider_job_id := some "pj5", status := .success, attempts := 0,
    input_session_id := none, input_image_count := 1,
    input_prompt := none, output := none,
    result_url := some "signed:j5:u", error := none,
    webhook_secret := some "sec5" }

def dbC5 : Db := ⟨[], [jobSuccessRow], [], []⟩

/-- A processing session linked to running job j3 (no secret), used to
show a cancelled session being revived by the job's callback. -/
def sessionProc : Session :=
  { id := "s3", telegram_chat_id := "7", telegram_user_id := some "9",
    status := .processing, image_input := [imgOne], prompt := none,
    aspect_ratio := none, resolution := none, output_format := none,
    job_id := some "j3", error_message := none }

def jobThree : JobRow :=
  { id := "j3", user_id := none, telegram_chat_id := "7",
    telegram_message_id := none, provider := some "replicate",
    provider_job_id := some "pj3", status := .running, attempts := 0,
    input_session_id := some "s3", input_image_count := 1,
    input_prompt := none, output := none, result_url := none,
    error := none, webhook_secret := none }

def dbC3 : Db := ⟨[sessionProc], [jobThree], [], []⟩

/-- A cancelled (terminal) session. -/
def sessionTerm : Session :=
  { id := "sT", telegram_chat_id := "7", telegram_user_id := some "9",
    status := .cancelled, image_input := [], prompt := none,
    aspect_ratio := none, resolution := none, output_format := none,
    job_id := some "j3", error_message := none }

def dbTerm : Db := ⟨[sessionTerm], [], [], []⟩

/-- A running job whose stored secret is null. -/
def jobNoSecret : JobRow :=
  { id := "j10", user_id := none, telegram_chat_id := "7",
    telegram_message_id := none, provider := some "replicate",
    provider_job_id := some "pj10", status := .running, attempts := 0,
    input_session_id := none, input_image_count := 1,
    input_prompt := none, output := none, result_url := none,
    error := none, webhook_secret := none }

def dbC10 : Db := ⟨[], [jobNoSecret], [], []⟩

def startMessage : TgMessage :=
  { message_id := 1, chat_id := some 7, from_id := some 9,
    text := some "/start", photo := none, document := none }

def startUpdate : TgUpdate :=
  { update_id := 42, message := some startMessage, edited_message := none,
    callback_query := none }

def plainUpdate : TgUpdate :=
  { update_id := 43, message := none, edited_message := none,
    callback_query := none }

/-! ## Helper lemmas about the store primitives -/

theorem mapSessionRow_jobs (db : Db) (k : String) (f : Session → Session) :
    (mapSessionRow db k f).jobs = db.jobs := rfl

theorem mapSessionRow_processed (db : Db) (k : String) (f : Session → Session) :
    (mapSessionRow db k f).processed_updates = db.processed_updates := rfl

theorem mapJobRow_sessions (db : Db) (k : String) (f : JobRow → JobRow) :
    (mapJobRow db k f).sessions = db.sessions := rfl

theorem mapJobRow_processed (db : Db) (k : String) (f : JobRow → JobRow) :
    (mapJobRow db k f).processed_updates = db.processed_updates := rfl

theorem patchSession_id (st : SessionStatus) (em jid pr : Option String)
    (s : Session) : (patchSession st em jid pr s).id = s.id := rfl

theorem patchSession_chat (st : SessionStatus) (em jid pr : Option String)
    (s : Session) :
    (patchSession st em jid pr s).telegram_chat_id = s.telegram_chat_id := rfl

theorem patchSession_status (st : SessionStatus) (em jid pr : Option String)
    (s : Session) : (patchSession st em jid pr s).status = st := rfl

theorem patchSession_images (st : SessionStatus) (em jid pr : Option String)
    (s : Session) : (patchSession st em jid pr s).image_input = s.image_input := rfl

/-- Generic list lemma: updating rows selected by a key leaves the first
row found under an unrelated predicate in place, provided the patched
row still satisfies the predicate and keys are unique. -/
theorem find_after_keyed_update {α : Type} (key : α → String) (k : String)
    (p : α → Bool) (f : α → α) :
    ∀ (l : List α) (s : α), (l.map key).Nodup →
      l.find? p = some s → key s = k → p (f s) = true →
      (l.map fun a => if key a = k then f a else a).find? p = some (f s)
  | [], s, _, hfind, _, _ => by simp at hfind
  | a :: t, s, hN, hfind, hk, hp => by
    by_cases hpa : p a = true
    · rw [List.find?_cons_of_pos _ hpa] at hfind
      have has : a = s := by injection hfind
      subst has
      simp only [List.map_cons, hk, if_pos rfl]
      exact List.find?_cons_of_pos _ hp
    · have hpa' : ¬ p a := by simpa using hpa
      rw [List.find?_cons_of_neg _ hpa'] at hfind
      have hmem : s ∈ t := List.mem_of_find?_eq_some hfind
      have hne : key a ≠ k := by
        intro h
        have : key a ∈ t.map key := by
          rw [h, ← hk]; exact List.mem_map_of_mem key hmem
        simp only [List.map_cons, List.nodup_cons] at hN
        exact hN.1 this
      simp only [List.map_cons, if_neg hne]
      rw [List.find?_cons_of_neg _ hpa']
      exact find_after_keyed_update key k p f t s
        (by simpa using (List.nodup_cons.mp (by simpa using hN)).2)
        hfind hk hp

/-- Generic list lemma: when the find predicate is exactly "key equals
k", updating the rows with key k rewrites the first find result through
the patch (no uniqueness needed: rows before the first match have a
different key and are untouched). -/
theorem find_key_after_update {α : Type} (key : α → String) (k : String)
    (f : α → α) (hf : ∀ a, key (f a) = key a) :
    ∀ (l : List α) (s : α),
      l.find? (fun a => decide (key a = k)) = some s →
      (l.map fun a => if key a = k then f a else a).find?
        (fun a => decide (key a = k)) = some (f s)
  | [], s, hfind => by simp at hfind
  | a :: t, s, hfind => by
    by_cases hka : key a = k
    · rw [List.find?_cons_of_pos _ (by simpa using hka)] at hfind
      have has : a = s := by injection hfind
      subst has
      simp only [List.map_cons, if_pos hka]
      exact List.find?_cons_of_pos _ (by simp [hf, hka])
    · rw [List.find?_cons_of_neg _ (by simpa using hka)] at hfind
      simp only [List.map_cons, if_neg hka]
      rw [List.find?_cons_of_neg _ (by simpa using hka)]
      exact find_key_after_update key k f hf t s hfind

/-- Generic list lemma: updating rows selected by one key does not
change what a lookup under a different key finds. -/
theorem find_key_after_other_update {α : Type} (key : α → String)
    (k k2 : String) (f : α → α) (hf : ∀ a, key (f a) = key a)
    (hne : k2 ≠ k) :
    ∀ (l : List α),
      (l.map fun a => if key a = k2 then f a else a).find?
        (fun a => decide (key a = k)) = l.find? (fun a => decide (key a = k))
  | [] => rfl
  | a :: t => by
    by_cases hka : key a = k
    · have : ¬ key a = k2 := fun h => hne (by rw [← h, hka])
      simp only [List.map_cons, if_neg this]
      rw [List.find?_cons_of_pos _ (by simpa using hka),
        List.find?_cons_of_pos _ (by simpa using hka)]
    · by_cases hka2 : key a = k2
      · simp only [List.map_cons, if_pos hka2]
        rw [List.find?_cons_of_neg _ (by simp [hf, hka]),
          List.find?_cons_of_neg _ (by simpa using hka)]
        exact find_key_after_other_update key k k2 f hf hne t
      · simp only [List.map_cons, if_neg hka2]
        rw [List.find?_cons_of_neg _ (by simpa using hka),
          List.find?_cons_of_neg _ (by simpa using hka)]
        exact find_key_after_other_update key k k2 f hf hne t

/-- Generic list lemma: a row whose key differs from the updated key
stays in the list unchanged. -/
theorem mem_after_keyed_update {α : Type} (key : α → String) (k : String)
    (f : α → α) (l : List α) (s : α) (hs : s ∈ l) (hne : key s ≠ k) :
    s ∈ l.map fun a => if key a = k then f a else a := by
  have : s = if key s = k then f s else s := by rw [if_neg hne]
  rw [this]
  exact List.mem_map_of_mem _ hs

/-- Keyed updates with a key-preserving patch do not change the key
column. -/
theorem map_key_after_update {α : Type} (key : α → String) (k : String)
    (f : α → α) (hf : ∀ a, key (f a) = key a) (l : List α) :
    (l.map fun a => if key a = k then f a else a).map key = l.map key := by
  induction l with
  | nil => rfl
  | cons a t ih =>
    by_cases hka : key a = k <;> simp [hka, hf, ih]

theorem createSessionDb_jobs (db : Db) (i c : String) (u : Option String) :
    (createSessionDb db i c u).1.jobs = db.jobs := rfl

theorem createSessionDb_processed (db : Db) (i c : String) (u : Option String) :
    (createSessionDb db i c u).1.processed_updates = db.processed_updates := rfl

theorem createSessionDb_sessions (db : Db) (i c : String) (u : Option String) :
    (createSessionDb db i c u).1.sessions
      = db.sessions ++ [(createSessionDb db i c u).2] := rfl

theorem createJobDb_sessions (db : Db) (jobId : String) (u : Option String)
    (c : String) (w sid : Option String) (n : Nat) (pr : Option String) :
    (createJobDb db jobId u c w sid n pr).1.sessions = db.sessions := rfl

theorem createJobDb_processed (db : Db) (jobId : String) (u : Option String)
    (c : String) (w sid : Option String) (n : Nat) (pr : Option String) :
    (createJobDb db jobId u c w sid n pr).1.processed_updates
      = db.processed_updates := rfl

theorem createJobDb_jobs (db : Db) (jobId : String) (u : Option String)
    (c : String) (w sid : Option String) (n : Nat) (pr : Option String) :
    (createJobDb db jobId u c w sid n pr).1.jobs
      = db.jobs ++ [(createJobDb db jobId u c w sid n pr).2] := rfl

theorem updateSessionStatusDb_jobs (db : Db) (k : String)
    (st : SessionStatus) (em jid pr : Option String) :
    (updateSessionStatusDb db k st em jid pr).jobs = db.jobs := rfl

theorem updateSessionStatusDb_processed (db : Db) (k : String)
    (st : SessionStatus) (em jid pr : Option String) :
    (updateSessionStatusDb db k st em jid pr).processed_updates
      = db.processed_updates := rfl

theorem markJobRunningDb_sessions (db : Db) (k : String) (p : Option String) :
    (markJobRunningDb db k p).sessions = db.sessions := rfl

theorem markJobRunningDb_processed (db : Db) (k : String) (p : Option String) :
    (markJobRunningDb db k p).processed_updates = db.processed_updates := rfl

theorem setJobProviderDb_sessions (db : Db) (k p : String) :
    (setJobProviderDb db k p).sessions = db.sessions := rfl

theorem setJobProviderDb_processed (db : Db) (k p : String) :
    (setJobProviderDb db k p).processed_updates = db.processed_updates := rfl

theorem markJobFailedDb_sessions (db : Db) (k e : String) :
    (markJobFailedDb db k e).sessions = db.sessions := rfl

theorem markJobFailedDb_processed (db : Db) (k e : String) :
    (markJobFailedDb db k e).processed_updates = db.processed_updates := rfl

theorem markJobSuccessDb_sessions (db : Db) (k u : String)
    (o : Option CbPayload) : (markJobSuccessDb db k u o).sessions = db.sessions := by
  unfold markJobSuccessDb
  split
  · rfl
  · split <;> rfl

theorem markJobSuccessDb_processed (db : Db) (k u : String)
    (o : Option CbPayload) :
    (markJobSuccessDb db k u o).processed_updates = db.processed_updates := by
  unfold markJobSuccessDb
  split
  · rfl
  · split <;> rfl

theorem storeResultDb_sessions (db : Db) (k u : String) :
    (storeResultDb db k u).1.sessions = db.sessions := rfl

theorem storeResultDb_jobs (db : Db) (k u : String) :
    (storeResultDb db k u).1.jobs = db.jobs := rfl

theorem storeResultDb_processed (db : Db) (k u : String) :
    (storeResultDb db k u).1.processed_updates = db.processed_updates := rfl

theorem markUpdateProcessedDb_sessions (db : Db) (i : Nat) :
    (markUpdateProcessedDb db i).sessions = db.sessions := by
  unfold markUpdateProcessedDb
  split <;> rfl

theorem markUpdateProcessedDb_jobs (db : Db) (i : Nat) :
    (markUpdateProcessedDb db i).jobs = db.jobs := by
  unfold markUpdateProcessedDb
  split <;> rfl

theorem markUpdateProcessedDb_mem (db : Db) (i : Nat) :
    i ∈ (markUpdateProcessedDb db i).processed_updates := by
  unfold markUpdateProcessedDb
  split
  · next h => simpa using h
  · simp

/-- addImageToSessionDb never touches the job ledger or the
processed-updates ledger. -/
theorem addImageToSessionDb_ok_frame (db : Db) (sid : String)
    (img : SessionImageInput) (r : Db × Session)
    (h : addImageToSessionDb db sid img = .ok r) :
    r.1.jobs = db.jobs ∧ r.1.processed_updates = db.processed_updates := by
  unfold addImageToSessionDb at h
  split at h
  · exact absurd h (by simp)
  · dsimp only at h
    split at h
    · injection h with h'
      rw [← h']
      exact ⟨rfl, rfl⟩
    · split at h
      · exact absurd h (by simp)
      · injection h with h'
        rw [← h']
        exact ⟨rfl, rfl⟩

/-- A session added by addImageToSessionDb only patches the row with
the given id: any row with a different id survives unchanged. -/
theorem addImageToSessionDb_ok_mem (db : Db) (sid : String)
    (img : SessionImageInput) (r : Db × Session) (s : Session)
    (h : addImageToSessionDb db sid img = .ok r)
    (hs : s ∈ db.sessions) (hne : s.id ≠ sid) : s ∈ r.1.sessions := by
  unfold addImageToSessionDb at h
  split at h
  · exact absurd h (by simp)
  · dsimp only at h
    split at h
    · injection h with h'
      rw [← h']
      exact hs
    · split at h
      · exact absurd h (by simp)
      · injection h with h'
        rw [← h']
        exact mem_after_keyed_update Session.id sid _ db.sessions s hs hne

theorem getActiveSession_mem (db : Db) (c : String) (s : Session)
    (h : getActiveSession db c = some s) :
    s ∈ db.sessions ∧ s.telegram_chat_id = c ∧ isActiveStatus s.status = true := by
  unfold getActiveSession at h
  refine ⟨List.mem_of_find?_eq_some h, ?_, ?_⟩
  · have := List.find?_some h
    simp only [Bool.and_eq_true, decide_eq_true_eq] at this
    exact this.1
  · have := List.find?_some h
    simp only [Bool.and_eq_true, decide_eq_true_eq] at this
    exact this.2

/-- Resolving the active session after a status update that keeps the
session active (uniqueness of ids assumed). -/
theorem getActiveSession_after_update (db : Db) (c : String) (s : Session)
    (st : SessionStatus) (em jid pr : Option String)
    (hN : (db.sessions.map Session.id).Nodup)
    (hfind : getActiveSession db c = some s)
    (hact : isActiveStatus st = true) :
    getActiveSession (updateSessionStatusDb db s.id st em jid pr) c
      = some (patchSession st em jid pr s) := by
  have hchat := (getActiveSession_mem db c s hfind).2.1
  unfold getActiveSession at hfind ⊢
  unfold updateSessionStatusDb mapSessionRow
  exact find_after_keyed_update Session.id s.id _ _ db.sessions s hN hfind rfl
    (by simp [patchSession, hchat, hact])

theorem getJobById_mapJobRow_self (db : Db) (k : String) (f : JobRow → JobRow)
    (hf : ∀ j, (f j).id = j.id) (j : JobRow)
    (hfind : getJobById db k = some j) :
    getJobById (mapJobRow db k f) k = some (f j) := by
  unfold getJobById at hfind ⊢
  unfold mapJobRow
  exact find_key_after_update JobRow.id k f hf db.jobs j hfind

theorem getJobById_mapJobRow_other (db : Db) (k k2 : String)
    (f : JobRow → JobRow) (hf : ∀ j, (f j).id = j.id) (hne : k2 ≠ k) :
    getJobById (mapJobRow db k2 f) k = getJobById db k := by
  unfold getJobById mapJobRow
  exact find_key_after_other_update JobRow.id k k2 f hf hne db.jobs

theorem startSessionGeneration_processed (db : Db) (env : WebhookEnv)
    (sid c : String) (uid : Option String) :
    (startSessionGeneration db env sid c uid).1.processed_updates
      = db.processed_updates := by
  unfold startSessionGeneration
  split
  · rfl
  · dsimp only
    split
    · rfl
    · split
      · rfl
      · split
        · rfl
        · split <;> rfl

theorem handleSessionDone_processed (db : Db) (env : WebhookEnv)
    (chatId : Nat) (userId : Option Nat) (messageId : Option Nat)
    (callbackId : String) :
    (handleSessionDone db env chatId userId messageId callbackId).1.processed_updates
      = db.processed_updates := by
  unfold handleSessionDone
  dsimp only
  repeat' split
  all_goals
    simp [startSessionGeneration_processed, updateSessionStatusDb_processed]

theorem handleSessionCancel_processed (db : Db) (chatId : Nat)
    (messageId : Option Nat) (callbackId : String) :
    (handleSessionCancel db chatId messageId callbackId).1.processed_updates
      = db.processed_updates := by
  unfold handleSessionCancel
  dsimp only
  repeat' split
  all_goals rfl

theorem handleCancelCommand_processed (db : Db) (chatId : Nat) :
    (handleCancelCommand db chatId).1.processed_updates = db.processed_updates := by
  unfold handleCancelCommand
  dsimp only
  repeat' split
  all_goals rfl

theorem handleImageUpload_processed (db : Db) (env : WebhookEnv)
    (chatId : Nat) (userId : Option String) (messageId : Nat)
    (imageInput : ImageInput) :
    (handleImageUpload db env chatId userId messageId imageInput).1.processed_updates
      = db.processed_updates := by
  unfold handleImageUpload
  dsimp only
  repeat' split
  all_goals
    first
    | rfl
    | ((rename addImageToSessionDb _ _ _ = Except.ok _ => heq);
       exact ((addImageToSessionDb_ok_frame _ _ _ _ heq).2).trans
         (by split <;> rfl))

theorem handleSessionTips_processed (db : Db) (chatId : Nat) (cid : String) :
    (handleSessionTips db chatId cid).1.processed_updates
      = db.processed_updates := rfl

theorem handleStartCommand_processed (db : Db) (chatId : Nat) :
    (handleStartCommand db chatId).1.processed_updates = db.processed_updates := rfl

theorem handleCallbackQuery_processed (db : Db) (env : WebhookEnv)
    (q : TgCallbackQuery) :
    (handleCallbackQuery db env q).1.processed_updates = db.processed_updates := by
  unfold handleCallbackQuery
  repeat' split
  all_goals
    simp [handleSessionDone_processed, handleSessionCancel_processed,
      handleSessionTips_processed]

theorem messageArm_processed (db : Db) (env : WebhookEnv)
    (message : Option TgMessage) (chatIdOpt userIdOpt : Option Nat) :
    (messageArm db env message chatIdOpt userIdOpt).db.processed_updates
      = db.processed_updates := by
  unfold messageArm
  repeat' (first | split | (dsimp only; split))
  all_goals
    simp [handleStartCommand_processed, handleCancelCommand_processed,
      handleImageUpload_processed]

/-- After a webhook invocation with a non-zero update id that passes
authentication, the update id is recorded in the idempotency ledger. -/
theorem webhookHandler_marks_processed (db : Db) (env : WebhookEnv)
    (u : TgUpdate) (hid : u.update_id ≠ 0) (hauth : webhookAuthOk env) :
    u.update_id ∈ (webhookHandler db env "POST" u).db.processed_updates := by
  unfold webhookHandler
  rw [if_neg (by simp), if_neg hauth.1, if_neg hauth.2]
  by_cases hproc : isUpdateProcessed db u.update_id = true
  · rw [if_pos ⟨hid, hproc⟩]
    simpa [isUpdateProcessed] using hproc
  · rw [if_neg (fun h => hproc h.2)]
    dsimp only
    rw [if_pos hid]
    have hmark := markUpdateProcessedDb_mem db u.update_id
    split
    · split
      · simpa [handleCallbackQuery_processed] using hmark
      · simpa [messageArm_processed] using hmark
    · simpa [messageArm_processed] using hmark

/-- A webhook invocation whose update id is already in the ledger is
answered 200 with no effects and no store change. -/
theorem webhookHandler_short_circuit (db : Db) (env : WebhookEnv)
    (u : TgUpdate) (hauth : webhookAuthOk env) (hid : u.update_id ≠ 0)
    (hproc : isUpdateProcessed db u.update_id = true) :
    webhookHandler db env "POST" u = ⟨db, [], 200⟩ := by
  unfold webhookHandler
  rw [if_neg (by simp), if_neg hauth.1, if_neg hauth.2, if_pos ⟨hid, hproc⟩]

/-! ## Claim theorems -/

/-- C9: appending an image whose telegram message id already occurs in
the session's image list leaves the whole store and the stored image
list unchanged, and returns the prior session row, as a silent no-op
rather than an error. -/
theorem c9_duplicate_image_append_noop (db : Db) (sessionId : String)
    (img : SessionImageInput) (s : Session)
    (hfind : getSessionById db sessionId = some s)
    (hdup : (s.image_input.any fun i =>
      decide (i.telegram_message_id = img.telegram_message_id)) = true) :
    addImageToSessionDb db sessionId img = .ok (db, s) := by
  unfold addImageToSessionDb
  rw [hfind]
  dsimp only
  rw [if_pos hdup]

/-- Witness for C9 at a concrete store: re-delivering the image with
message id 100 to session s1 is a no-op returning the prior row. -/
theorem c9_duplicate_image_append_noop_witness :
    getSessionById dbOne "s1" = some sessionOne ∧
    (sessionOne.image_input.any fun i =>
      decide (i.telegram_message_id = imgOne.telegram_message_id)) = true ∧
    addImageToSessionDb dbOne "s1" imgOne = .ok (dbOne, sessionOne) :=
  ⟨by decide, by decide,
    c9_duplicate_image_append_noop dbOne "s1" imgOne sessionOne
      (by decide) (by decide)⟩

/-- Characterization of the document arm of the image classifier. -/
theorem extractFromDocument_eq (d : Option TgDocument) :
    extractImageInput.extractFromDocument d =
      match d with
      | none => none
      | some doc =>
        if strStarts ((doc.mime_type.map lowerString).getD "") "image/" ||
            [".jpg", ".jpeg", ".png", ".webp", ".gif"].any
              (fun e => strEnds ((doc.file_name.map lowerString).getD "") e) then
          some ⟨.document, doc.file_id⟩
        else none := by
  cases d with
  | none => rfl
  | some doc =>
    unfold extractImageInput.extractFromDocument
    cases hm : strStarts ((doc.mime_type.map lowerString).getD "") "image/" <;>
      simp [hm, List.any_cons, List.any_nil, or_assoc]

/-- C8 counterexample: a document named scan.gif with no declared mime
type is classified as an image by the code, while the claimed
allow-list (jpg/jpeg/png/webp only) classifies it as no image. -/
theorem c8_image_detect_counterexample :
    extractImageInput (some gifDocMessage) = some ⟨.document, "f1"⟩ ∧
    claimedImageDetect (some gifDocMessage) = none := by
  constructor <;> decide

/-- C8 amended: the image classifier agrees everywhere with the claimed
contract once gif is added to the extension allow-list. -/
theorem c8_image_detect_amended :
    ∀ m : Option TgMessage, extractImageInput m = claimedImageDetectAmended m := by
  intro m
  cases m with
  | none => rfl
  | some msg =>
    unfold extractImageInput claimedImageDetectAmended
    dsimp only
    cases hp : msg.photo with
    | none => exact extractFromDocument_eq msg.document
    | some l =>
      cases l with
      | nil => exact extractFromDocument_eq msg.document
      | cons p ps =>
        simp [List.getLast?_eq_getLast (p :: ps) (by simp)]

/-- C6: once an update with a non-zero id has been delivered through an
authenticated webhook invocation, delivering the same update again is
detected in the processed-updates ledger before any handler logic
runs: the second delivery returns 200 with no effects and leaves the
store exactly as the first delivery left it. -/
theorem c6_duplicate_update_second_delivery_noop (db : Db) (env : WebhookEnv)
    (u : TgUpdate) (hid : u.update_id ≠ 0) (hauth : webhookAuthOk env) :
    webhookHandler (webhookHandler db env "POST" u).db env "POST" u
      = ⟨(webhookHandler db env "POST" u).db, [], 200⟩ :=
  webhookHandler_short_circuit _ env u hauth hid
    (by simpa [isUpdateProcessed] using
      webhookHandler_marks_processed db env u hid hauth)

/-- Witness for C6 at a concrete update and store. -/
theorem c6_duplicate_update_second_delivery_noop_witness :
    (plainUpdate.update_id ≠ 0 ∧ webhookAuthOk envOne) ∧
    webhookHandler (webhookHandler emptyDb envOne "POST" plainUpdate).db
        envOne "POST" plainUpdate
      = ⟨(webhookHandler emptyDb envOne "POST" plainUpdate).db, [], 200⟩ :=
  ⟨⟨by decide, by unfold webhookAuthOk; decide⟩,
    c6_duplicate_update_second_delivery_noop emptyDb envOne plainUpdate
      (by decide) (by unfold webhookAuthOk; decide)⟩

/-- C7: a /start command on an authenticated, rate-admitted, fresh
update reduces to the welcome message only: exactly one message is
sent, the response is 200, and the session store is unchanged (only the
idempotency ledger may gain the update id). -/
theorem c7_start_sends_welcome_creates_no_session (db : Db)
    (env : WebhookEnv) (u : TgUpdate) (m : TgMessage) (chatId : Nat)
    (hauth : webhookAuthOk env)
    (hrate : env.rateAllowed = true)
    (hproc : isUpdateProcessed db u.update_id = false)
    (hcq : u.callback_query = none)
    (hmsg : u.message = some m)
    (hchat : m.chat_id = some chatId)
    (htext : strStarts ((m.text.map strTrim).getD "") "/start" = true)
    (hactive : getActiveSession db (toString chatId) = none) :
    (webhookHandler db env "POST" u).db.sessions = db.sessions ∧
    (webhookHandler db env "POST" u).effects
      = [Effect.sendMessage (toString chatId) welcomeText] ∧
    (webhookHandler db env "POST" u).code = 200 := by
  have hred : webhookHandler db env "POST" u =
      ⟨if u.update_id ≠ 0 then markUpdateProcessedDb db u.update_id else db,
        [Effect.sendMessage (toString chatId) welcomeText], 200⟩ := by
    unfold webhookHandler
    rw [if_neg (by simp), if_neg hauth.1, if_neg hauth.2,
      if_neg (by simp [hproc])]
    dsimp only
    rw [hcq]
    try dsimp only
    unfold messageArm
    rw [hmsg]
    simp only [Option.some_orElse, Option.some_bind, Option.none_bind, hchat]
    try dsimp only
    rw [if_neg (by simp [hrate]), if_pos htext]
    rfl
  rw [hred]
  refine ⟨?_, rfl, rfl⟩
  split <;> simp [markUpdateProcessedDb_sessions]

/-- Witness for C7 at a concrete /start update on an empty store. -/
theorem c7_start_sends_welcome_creates_no_session_witness :
    (webhookAuthOk envOne ∧ envOne.rateAllowed = true ∧
      isUpdateProcessed emptyDb startUpdate.update_id = false ∧
      startUpdate.callback_query = none ∧
      startUpdate.message = some startMessage ∧
      startMessage.chat_id = some 7 ∧
      strStarts ((startMessage.text.map strTrim).getD "") "/start" = true ∧
      getActiveSession emptyDb (toString 7) = none) ∧
    ((webhookHandler emptyDb envOne "POST" startUpdate).db.sessions
        = emptyDb.sessions ∧
      (webhookHandler emptyDb envOne "POST" startUpdate).effects
        = [Effect.sendMessage (toString 7) welcomeText] ∧
      (webhookHandler emptyDb envOne "POST" startUpdate).code = 200) :=
  ⟨⟨by unfold webhookAuthOk; decide, by decide, by decide, by decide,
      by decide, by decide, by decide, by decide⟩,
    c7_start_sends_welcome_creates_no_session emptyDb envOne startUpdate
      startMessage 7 (by unfold webhookAuthOk; decide) (by decide)
      (by decide) (by decide) (by decide) (by decide) (by decide)
      (by decide)⟩

theorem getJobById_congr (db1 db2 : Db) (k : String)
    (h : db1.jobs = db2.jobs) : getJobById db1 k = getJobById db2 k := by
  unfold getJobById
  rw [h]

theorem expectedSignature_ne_empty (s j : String) :
    expectedSignature s j ≠ "" := by
  unfold expectedSignature
  intro h
  have h2 := congrArg String.data h
  simp at h2

/-- A header carrying exactly the expected signature passes the
verification. -/
theorem verify_valid_of_expected (jobId secr : String) (hs : secr ≠ "") :
    verifyWebhookSignature jobId (some secr)
      (some (expectedSignature secr jobId)) = .ok true := by
  unfold verifyWebhookSignature
  rw [if_neg (by simp [strTruthy, hs, expectedSignature_ne_empty])]
  dsimp only
  rw [if_pos rfl]
  simp

/-- C4 amended: there is no transition out of success under the
Callback Reconciler: a callback naming a job already in status success
is acknowledged with 200, sends nothing and changes nothing. -/
theorem c4_no_transition_out_of_success (db : Db) (jobId : String)
    (header : Option String) (p : CbPayload) (job : JobRow)
    (hjid : jobId ≠ "") (hjob : getJobById db jobId = some job)
    (hsucc : job.status = .success) :
    callbackHandler db "POST" (some jobId) header (some p) = ⟨db, [], 200⟩ := by
  unfold callbackHandler
  rw [if_neg (by simp), if_neg (by simp [strTruthy, hjid])]
  dsimp only
  rw [hjob]
  dsimp only
  rw [if_pos hsucc]

/-- Witness for the amended C4 at a concrete success job. -/
theorem c4_no_transition_out_of_success_witness :
    (("j5" : String) ≠ "" ∧ getJobById dbC5 "j5" = some jobSuccessRow ∧
      jobSuccessRow.status = .success) ∧
    callbackHandler dbC5 "POST" (some "j5") none (some succPayload)
      = ⟨dbC5, [], 200⟩ :=
  ⟨⟨by decide, by decide, by decide⟩,
    c4_no_transition_out_of_success dbC5 "j5" none succPayload jobSuccessRow
      (by decide) (by decide) (by decide)⟩

/-- C4 counterexample: a job already marked failed is moved to success
by a later succeeded callback (the reconciler short-circuits only on
success, and markJobSuccess only refuses when the row is already
success). -/
theorem c4_failed_job_moved_to_success_counterexample :
    (getJobById dbC4 "j4").map JobRow.status = some .failed ∧
    (getJobById (callbackHandler dbC4 "POST" (some "j4") none
        (some succPayload)).db "j4").map JobRow.status = some .success := by
  constructor <;> decide

/-- C5 amended: an invalid signature for a resolved job that is not
already success - a missing header, or a present header of the
expected byte length that differs from the expected value - makes no
mutation, sends nothing, and is answered 401.  (A header of a
different byte length makes the comparison throw, which the outer
catch answers with 200; a callback for an already-success job is
acknowledged 200 before the signature is even checked.) -/
theorem c5_invalid_signature_rejected_401 (db : Db) (jobId : String)
    (header : Option String) (p : CbPayload) (job : JobRow)
    (hjid : jobId ≠ "")
    (hjob : getJobById db jobId = some job)
    (hnot : ¬ job.status = .success)
    (hsecret : strTruthy job.webhook_secret = true)
    (hver : verifyWebhookSignature jobId job.webhook_secret header
      = .ok false) :
    callbackHandler db "POST" (some jobId) header (some p) = ⟨db, [], 401⟩ := by
  unfold callbackHandler
  rw [if_neg (by simp), if_neg (by simp [strTruthy, hjid])]
  dsimp only
  rw [hjob]
  dsimp only
  rw [if_neg hnot]
  try dsimp only
  rw [if_pos hsecret, hver]

/-- Witness for the amended C5: a missing signature header on a running
job with a stored secret is rejected with 401 and no change. -/
theorem c5_invalid_signature_rejected_401_witness :
    (("j1" : String) ≠ "" ∧ getJobById dbJob "j1" = some jobRun ∧
      ¬ jobRun.status = .success ∧
      strTruthy jobRun.webhook_secret = true ∧
      verifyWebhookSignature "j1" jobRun.webhook_secret none = .ok false) ∧
    callbackHandler dbJob "POST" (some "j1") none (some succPayload)
      = ⟨dbJob, [], 401⟩ :=
  ⟨⟨by decide, by decide, by decide, by decide, by rfl⟩,
    c5_invalid_signature_rejected_401 dbJob "j1" none succPayload jobRun
      (by decide) (by decide) (by decide) (by decide) (by rfl)⟩

/-- C5 counterexample: for a job already in status success, a callback
whose signature is invalid (here: missing) is acknowledged with 200,
not rejected with 401 - the success idempotency short-circuit runs
before the signature check. -/
theorem c5_success_job_invalid_signature_200_counterexample :
    jobSuccessRow.webhook_secret = some "sec5" ∧
    verifyWebhookSignature "j5" jobSuccessRow.webhook_secret none
      = .ok false ∧
    callbackHandler dbC5 "POST" (some "j5") none (some succPayload)
      = ⟨dbC5, [], 200⟩ := by
  refine ⟨by decide, by rfl, ?_⟩
  decide

/-- C10: when a job's stored per-job secret is null, the reconciler
performs no signature validation: the outcome is independent of the
signature header, and a terminal callback reaches the job mutation and
the user notification regardless of what the header carries. -/
theorem c10_null_secret_skips_signature_validation (db : Db)
    (jobId : String) (p : CbPayload) (job : JobRow)
    (hjid : jobId ≠ "")
    (hjob : getJobById db jobId = some job)
    (hsec : job.webhook_secret = none) :
    (∀ h1 h2 : Option String,
      callbackHandler db "POST" (some jobId) h1 (some p)
        = callbackHandler db "POST" (some jobId) h2 (some p)) ∧
    (¬ job.status = .success → p.status = "failed" →
      (callbackHandler db "POST" (some jobId) none (some p)).code = 200 ∧
      (callbackHandler db "POST" (some jobId) none (some p)).effects
        = [Effect.sendMessage job.telegram_chat_id failNoticeText] ∧
      ∃ j', getJobById
          (callbackHandler db "POST" (some jobId) none (some p)).db jobId
        = some j' ∧ j'.status = .failed) := by
  constructor
  · intro h1 h2
    unfold callbackHandler
    simp [hjob, hsec, strTruthy, hjid]
  · intro hns hpf
    have hred : callbackHandler db "POST" (some jobId) none (some p) =
        ⟨(match getSessionByJobId (markJobFailedDb db jobId (cbErrorMessage p))
              jobId with
          | some s =>
            updateSessionStatusDb
              (markJobFailedDb db jobId (cbErrorMessage p)) s.id .failed
              (some (cbErrorMessage p)) none none
          | none => markJobFailedDb db jobId (cbErrorMessage p)),
          [Effect.sendMessage job.telegram_chat_id failNoticeText], 200⟩ := by
      unfold callbackHandler
      rw [if_neg (by simp), if_neg (by simp [strTruthy, hjid])]
      dsimp only
      rw [hjob]
      dsimp only
      rw [if_neg hns]
      try dsimp only
      rw [hsec]
      try dsimp only
      rw [if_neg (show ¬(strTruthy none = true) by decide)]
      try dsimp only
      rw [if_neg (by simp [hpf]), if_pos (Or.inl hpf)]
    rw [hred]
    refine ⟨rfl, rfl, ?_⟩
    have hjobs : getJobById
        (match getSessionByJobId (markJobFailedDb db jobId (cbErrorMessage p))
            jobId with
        | some s =>
          updateSessionStatusDb
            (markJobFailedDb db jobId (cbErrorMessage p)) s.id .failed
            (some (cbErrorMessage p)) none none
        | none => markJobFailedDb db jobId (cbErrorMessage p)) jobId
        = getJobById (markJobFailedDb db jobId (cbErrorMessage p)) jobId := by
      split
      · exact getJobById_congr _ _ jobId rfl
      · rfl
    rw [hjobs]
    unfold markJobFailedDb
    exact ⟨_, getJobById_mapJobRow_self db jobId
      (fun j => { j with status := .failed, error := some (cbErrorMessage p) })
      (fun j => rfl) job hjob, rfl⟩

/-- Witness for C10 at a concrete null-secret job and a failed
terminal callback. -/
theorem c10_null_secret_skips_signature_validation_witness :
    (("j10" : String) ≠ "" ∧ getJobById dbC10 "j10" = some jobNoSecret ∧
      jobNoSecret.webhook_secret = none ∧
      ¬ jobNoSecret.status = .success ∧ failedPayload.status = "failed") ∧
    ((∀ h1 h2 : Option String,
        callbackHandler dbC10 "POST" (some "j10") h1 (some failedPayload)
          = callbackHandler dbC10 "POST" (some "j10") h2 (some failedPayload)) ∧
      ((callbackHandler dbC10 "POST" (some "j10") none
          (some failedPayload)).code = 200 ∧
        (callbackHandler dbC10 "POST" (some "j10") none
            (some failedPayload)).effects
          = [Effect.sendMessage jobNoSecret.telegram_chat_id failNoticeText] ∧
        ∃ j', getJobById (callbackHandler dbC10 "POST" (some "j10") none
            (some failedPayload)).db "j10" = some j' ∧ j'.status = .failed)) :=
  ⟨⟨by decide, by decide, by decide, by decide, by decide⟩,
    let main := c10_null_secret_skips_signature_validation dbC10 "j10"
      failedPayload jobNoSecret (by decide) (by decide) (by decide)
    ⟨main.1, main.2 (by decide) (by decide)⟩⟩

/-- C2: a success callback that passes the signature check on a
not-yet-successful job sends exactly one result photo, answers 200 and
marks the job success; delivering the same callback again finds the
job already in status success, acknowledges with 200, sends nothing
and mutates nothing. -/
theorem c2_duplicate_success_callback_single_send (db : Db)
    (jobId secr : String) (p : CbPayload) (outUrl : String) (job : JobRow)
    (hjid : jobId ≠ "")
    (hjob : getJobById db jobId = some job)
    (hstat : ¬ job.status = .success)
    (hsec : job.webhook_secret = some secr) (hsne : secr ≠ "")
    (hps : p.status = "succeeded")
    (hout : extractOutputUrl p = some outUrl) :
    (((callbackHandler db "POST" (some jobId)
        (some (expectedSignature secr jobId)) (some p)).effects.filter
          isSendPhotoEffect).length = 1) ∧
    ((callbackHandler db "POST" (some jobId)
        (some (expectedSignature secr jobId)) (some p)).code = 200) ∧
    (callbackHandler (callbackHandler db "POST" (some jobId)
        (some (expectedSignature secr jobId)) (some p)).db "POST"
        (some jobId) (some (expectedSignature secr jobId)) (some p)
      = ⟨(callbackHandler db "POST" (some jobId)
          (some (expectedSignature secr jobId)) (some p)).db, [], 200⟩) := by
  have hj1 : getJobById (storeResultDb db jobId outUrl).1 jobId = some job := by
    rw [getJobById_congr (storeResultDb db jobId outUrl).1 db jobId
      (storeResultDb_jobs db jobId outUrl)]
    exact hjob
  have hmarked : markJobSuccessDb (storeResultDb db jobId outUrl).1 jobId
      (storeResultDb db jobId outUrl).2 (some p)
      = mapJobRow (storeResultDb db jobId outUrl).1 jobId
          (fun j => { j with status := .success, result_url := some (storeResultDb db jobId outUrl).2, output := some p }) := by
    unfold markJobSuccessDb
    rw [hj1]
    dsimp only
    rw [if_neg hstat]
  have hj2 : getJobById (markJobSuccessDb (storeResultDb db jobId outUrl).1
      jobId (storeResultDb db jobId outUrl).2 (some p)) jobId
      = some ({ job with status := .success, result_url := some (storeResultDb db jobId outUrl).2, output := some p }) := by
    rw [hmarked]
    exact getJobById_mapJobRow_self (storeResultDb db jobId outUrl).1 jobId
      (fun j => { j with status := .success, result_url := some (storeResultDb db jobId outUrl).2, output := some p })
      (fun j => rfl) job hj1
  have hred : callbackHandler db "POST" (some jobId)
      (some (expectedSignature secr jobId)) (some p) =
      ⟨(match getSessionByJobId (markJobSuccessDb
            (storeResultDb db jobId outUrl).1 jobId
            (storeResultDb db jobId outUrl).2 (some p)) jobId with
        | some s => updateSessionStatusDb (markJobSuccessDb
            (storeResultDb db jobId outUrl).1 jobId
            (storeResultDb db jobId outUrl).2 (some p)) s.id .done
            none none none
        | none => markJobSuccessDb (storeResultDb db jobId outUrl).1 jobId
            (storeResultDb db jobId outUrl).2 (some p)),
        (match job.telegram_message_id with
          | some m =>
            match natOfString? m with
            | some mid => [Effect.editText job.telegram_chat_id mid doneEditText]
            | none => []
          | none => []) ++
          [Effect.sendPhoto job.telegram_chat_id
            (storeResultDb db jobId outUrl).2
            (match getSessionByJobId (match getSessionByJobId
                  (markJobSuccessDb (storeResultDb db jobId outUrl).1 jobId
                    (storeResultDb db jobId outUrl).2 (some p)) jobId with
              | some s => updateSessionStatusDb (markJobSuccessDb
                  (storeResultDb db jobId outUrl).1 jobId
                  (storeResultDb db jobId outUrl).2 (some p)) s.id .done
                  none none none
              | none => markJobSuccessDb (storeResultDb db jobId outUrl).1
                  jobId (storeResultDb db jobId outUrl).2 (some p)) jobId with
            | some s =>
              if 1 < s.image_input.length then multiCaption s.image_input.length
              else if s.image_input.length = 1 then singleCaption
              else defaultCaption
            | none => defaultCaption)],
        200⟩ := by
    unfold callbackHandler
    rw [if_neg (by simp), if_neg (by simp [strTruthy, hjid])]
    dsimp only
    rw [hjob]
    dsimp only
    rw [if_neg hstat]
    try dsimp only
    rw [hsec]
    try dsimp only
    rw [if_pos (show strTruthy (some secr) = true by simp [strTruthy, hsne])]
    rw [verify_valid_of_expected jobId secr hsne]
    try dsimp only
    rw [if_neg (by simp [hps]), if_neg (by simp [hps])]
    try dsimp only
    rw [hout]
  have heditempty : ((match job.telegram_message_id with
      | some m =>
        match natOfString? m with
        | some mid => [Effect.editText job.telegram_chat_id mid doneEditText]
        | none => []
      | none => []) : List Effect).filter isSendPhotoEffect = [] := by
    rcases job.telegram_message_id with _ | m
    · rfl
    · rcases hm : natOfString? m with _ | mid <;> simp [hm, isSendPhotoEffect]
  have hjob3 : getJobById (callbackHandler db "POST" (some jobId)
      (some (expectedSignature secr jobId)) (some p)).db jobId
      = some ({ job with status := .success, result_url := some (storeResultDb db jobId outUrl).2, output := some p }) := by
    rw [hred]
    dsimp only
    split
    · rw [getJobById_congr _ _ jobId rfl]
      exact hj2
    · exact hj2
  refine ⟨?_, ?_, ?_⟩
  · rw [hred]
    simp [List.filter_append, heditempty, isSendPhotoEffect]
  · rw [hred]
  · have hjob3' := hjob3
    rw [hred] at hjob3'
    rw [hred]
    unfold callbackHandler
    rw [if_neg (by simp), if_neg (by simp [strTruthy, hjid])]
    dsimp only
    rw [hjob3']
    dsimp only
    rw [if_pos rfl]

/-- Witness for C2 at a concrete running job and success callback. -/
theorem c2_duplicate_success_callback_single_send_witness :
    (("j1" : String) ≠ "" ∧ getJobById dbJob "j1" = some jobRun ∧
      ¬ jobRun.status = .success ∧ jobRun.webhook_secret = some "sec1" ∧
      ("sec1" : String) ≠ "" ∧ succPayload.status = "succeeded" ∧
      extractOutputUrl succPayload
        = some "https://replicate.delivery/out.png") ∧
    ((((callbackHandler dbJob "POST" (some "j1")
        (some (expectedSignature "sec1" "j1")) (some succPayload)).effects.filter
          isSendPhotoEffect).length = 1) ∧
    ((callbackHandler dbJob "POST" (some "j1")
        (some (expectedSignature "sec1" "j1")) (some succPayload)).code = 200) ∧
    (callbackHandler (callbackHandler dbJob "POST" (some "j1")
        (some (expectedSignature "sec1" "j1")) (some succPayload)).db "POST"
        (some "j1") (some (expectedSignature "sec1" "j1")) (some succPayload)
      = ⟨(callbackHandler dbJob "POST" (some "j1")
          (some (expectedSignature "sec1" "j1")) (some succPayload)).db,
          [], 200⟩)) :=
  ⟨⟨by decide, by decide, by decide, by decide, by decide, by decide,
      by decide⟩,
    c2_duplicate_success_callback_single_send dbJob "j1" "sec1" succPayload
      "https://replicate.delivery/out.png" jobRun (by decide) (by decide)
      (by decide) (by decide) (by decide) (by decide) (by decide)⟩

/-- C3 counterexample: a session cancelled while processing (terminal
status cancelled) is afterwards set to done by the provider success
callback for its job - the reconciler looks the session up by job id
without checking its status. -/
theorem c3_cancelled_session_revived_counterexample :
    ((getSessionById (handleSessionCancel dbC3 7 none "cb1").1 "s3").map
      Session.status = some .cancelled) ∧
    ((getSessionById (callbackHandler
        (handleSessionCancel dbC3 7 none "cb1").1 "POST" (some "j3") none
        (some succPayload)).db "s3").map Session.status = some .done) := by
  constructor <;> decide

theorem getActiveSession_congr (db1 db2 : Db) (c : String)
    (h : db1.sessions = db2.sessions) :
    getActiveSession db1 c = getActiveSession db2 c := by
  unfold getActiveSession
  rw [h]

/-- Normal run of startSessionGeneration: no job yet, valid images,
provider accepts - creates exactly one pending job, stores job id and
prompt on the session, marks the job running and submits. -/
theorem startSessionGeneration_run (db : Db) (env : WebhookEnv)
    (c : String) (uid : Option String) (s : Session)
    (hfind : getActiveSession db c = some s)
    (hjobid : s.job_id = none)
    (hval : ¬ (s.image_input.filter fun img =>
      match img.storage_path with
      | some p => !(strTrim p = "")
      | none => false).length = 0)
    (hprov : env.providerOk = true) :
    startSessionGeneration db env s.id c uid =
      (setJobProviderDb (markJobRunningDb (updateSessionStatusDb
          (createJobDb db env.newJobId uid c (some env.newSecret) (some s.id)
            s.image_input.length
            (some (buildStudioPortraitPrompt s.image_input.length))).1
          s.id .processing none
          (some (createJobDb db env.newJobId uid c (some env.newSecret)
            (some s.id) s.image_input.length
            (some (buildStudioPortraitPrompt s.image_input.length))).2.id)
          (some (buildStudioPortraitPrompt s.image_input.length)))
        (createJobDb db env.newJobId uid c (some env.newSecret) (some s.id)
          s.image_input.length
          (some (buildStudioPortraitPrompt s.image_input.length))).2.id
        (some env.providerJobId))
        (createJobDb db env.newJobId uid c (some env.newSecret) (some s.id)
          s.image_input.length
          (some (buildStudioPortraitPrompt s.image_input.length))).2.id
        "replicate",
       [Effect.providerSubmit
          (createJobDb db env.newJobId uid c (some env.newSecret) (some s.id)
            s.image_input.length
            (some (buildStudioPortraitPrompt s.image_input.length))).2.id
          (s.image_input.filter fun img =>
            match img.storage_path with
            | some p => !(strTrim p = "")
            | none => false).length],
       none) := by
  unfold startSessionGeneration
  rw [hfind]
  dsimp only
  rw [if_neg (show ¬(s.id ≠ s.id) by simp)]
  rw [hjobid]
  rw [if_neg (show ¬(strTruthy none = true) by decide)]
  try dsimp only
  rw [if_neg hval, if_pos hprov]

theorem createJobDb_snd_id (db : Db) (jobId : String) (u : Option String)
    (c : String) (w sid : Option String) (n : Nat) (pr : Option String) :
    (createJobDb db jobId u c w sid n pr).2.id = jobId := rfl

/-- C1: pressing Done twice on a collecting session with at least one
image creates exactly one job: the first invocation moves the session
to processing, creates one job and records its id on the session; the
second invocation finds the session already processing and performs
only the duplicate acknowledgement - no second job and no provider
submission. -/
theorem c1_finalize_twice_one_job (db : Db) (env : WebhookEnv)
    (chatId : Nat) (userId : Option Nat) (messageId : Option Nat)
    (callbackId : String) (s : Session)
    (hN : (db.sessions.map Session.id).Nodup)
    (hfind : getActiveSession db (toString chatId) = some s)
    (hst : s.status = .collecting)
    (himg : ¬ s.image_input.length = 0)
    (hjob : s.job_id = none)
    (hnj : env.newJobId ≠ "")
    (hval : ¬ (s.image_input.filter fun img =>
      match img.storage_path with
      | some p => !(strTrim p = "")
      | none => false).length = 0)
    (hprov : env.providerOk = true) :
    (handleSessionDone db env chatId userId messageId callbackId).1.jobs.length
      = db.jobs.length + 1 ∧
    (∃ s', getActiveSession
        (handleSessionDone db env chatId userId messageId callbackId).1
        (toString chatId) = some s' ∧
      s'.status = .processing ∧ s'.job_id = some env.newJobId) ∧
    handleSessionDone
        (handleSessionDone db env chatId userId messageId callbackId).1
        env chatId userId messageId callbackId
      = ((handleSessionDone db env chatId userId messageId callbackId).1,
        [Effect.answerCallback callbackId alreadyProcessingCallbackText]) := by
  have hps := getActiveSession_after_update db (toString chatId) s
    .processing none none none hN hfind rfl
  have hpsjob : (patchSession .processing none none none s).job_id = none := by
    simp [patchSession, strTruthy, hjob]
  have hgen := startSessionGeneration_run
    (updateSessionStatusDb db s.id .processing none none none) env
    (toString chatId) (userId.map toString)
    (patchSession .processing none none none s) hps hpsjob
    (by rw [patchSession_images]; exact hval) hprov
  rw [patchSession_id] at hgen
  rw [patchSession_images] at hgen
  set promptT := buildStudioPortraitPrompt s.image_input.length with hprompt
  set db1 := updateSessionStatusDb db s.id SessionStatus.processing
    none none none with hdb1
  set created := createJobDb db1 env.newJobId (userId.map toString)
    (toString chatId) (some env.newSecret) (some s.id)
    s.image_input.length (some promptT) with hcreated
  set db2 := updateSessionStatusDb created.1 s.id
    SessionStatus.processing none (some created.2.id) (some promptT) with hdb2
  set db4 := setJobProviderDb (markJobRunningDb db2 created.2.id
    (some env.providerJobId)) created.2.id "replicate" with hdb4
  have hred1 : handleSessionDone db env chatId userId messageId callbackId
      = (db4,
        ((match messageId with
          | some mid => [Effect.editReplyMarkup (toString chatId) mid]
          | none => []) ++
          [Effect.answerCallback callbackId
            (processingCountText s.image_input.length),
           Effect.sendMessage (toString chatId)
            (creatingText s.image_input.length)]) ++
          [Effect.providerSubmit created.2.id
            (s.image_input.filter fun img =>
              match img.storage_path with
              | some p => !(strTrim p = "")
              | none => false).length]) := by
    unfold handleSessionDone
    dsimp only
    rw [hfind]
    dsimp only
    rw [if_neg himg, if_neg (show ¬ s.status = .processing by rw [hst]; simp)]
    try dsimp only
    rw [← hdb1, hgen]
  have hcid : created.2.id = env.newJobId := by
    rw [hcreated]
    rfl
  have hN1 : ((created.1.sessions).map Session.id).Nodup := by
    rw [show created.1.sessions = db1.sessions from by rw [hcreated]; rfl]
    rw [hdb1]
    unfold updateSessionStatusDb mapSessionRow
    dsimp only
    rw [map_key_after_update Session.id s.id
      (patchSession .processing none none none) (fun a => rfl) db.sessions]
    exact hN
  have hfind1 : getActiveSession created.1 (toString chatId)
      = some (patchSession .processing none none none s) := by
    rw [getActiveSession_congr created.1 db1 (toString chatId)
      (by rw [hcreated]; rfl)]
    exact hps
  have h2 := getActiveSession_after_update created.1 (toString chatId)
    (patchSession .processing none none none s) .processing none
    (some created.2.id) (some promptT) hN1 hfind1 rfl
  rw [patchSession_id] at h2
  rw [← hdb2] at h2
  have h3 : getActiveSession db4 (toString chatId)
      = some (patchSession .processing none (some created.2.id)
        (some promptT) (patchSession .processing none none none s)) := by
    rw [getActiveSession_congr db4 db2 (toString chatId) (by rw [hdb4]; rfl)]
    exact h2
  refine ⟨?_, ?_, ?_⟩
  · rw [hred1]
    dsimp only
    rw [hdb4, hdb2, hcreated, hdb1]
    simp [setJobProviderDb, markJobRunningDb, mapJobRow,
      updateSessionStatusDb, mapSessionRow, createJobDb]
  · rw [hred1]
    refine ⟨_, h3, rfl, ?_⟩
    simp [patchSession, strTruthy, hcid, hnj]
  · rw [hred1]
    unfold handleSessionDone
    dsimp only
    rw [h3]
    dsimp only
    rw [if_neg (show ¬ ((patchSession .processing none (some created.2.id)
      (some promptT) (patchSession .processing none none none s)).image_input.length
        = 0) by simpa [patchSession] using himg)]
    rw [if_pos (show (patchSession .processing none (some created.2.id)
      (some promptT) (patchSession .processing none none none s)).status
        = .processing from rfl)]

/-- Witness for C1 at a concrete collecting session with one image. -/
theorem c1_finalize_twice_one_job_witness :
    ((dbOne.sessions.map Session.id).Nodup ∧
      getActiveSession dbOne (toString 7) = some sessionOne ∧
      sessionOne.status = .collecting ∧
      ¬ sessionOne.image_input.length = 0 ∧
      sessionOne.job_id = none ∧ envOne.newJobId ≠ "" ∧
      ¬ (sessionOne.image_input.filter fun img =>
        match img.storage_path with
        | some p => !(strTrim p = "")
        | none => false).length = 0 ∧
      envOne.providerOk = true) ∧
    ((handleSessionDone dbOne envOne 7 (some 9) (some 3) "cb").1.jobs.length
        = dbOne.jobs.length + 1 ∧
      (∃ s', getActiveSession
          (handleSessionDone dbOne envOne 7 (some 9) (some 3) "cb").1
          (toString 7) = some s' ∧
        s'.status = .processing ∧ s'.job_id = some envOne.newJobId) ∧
      handleSessionDone
          (handleSessionDone dbOne envOne 7 (some 9) (some 3) "cb").1
          envOne 7 (some 9) (some 3) "cb"
        = ((handleSessionDone dbOne envOne 7 (some 9) (some 3) "cb").1,
          [Effect.answerCallback "cb" alreadyProcessingCallbackText])) :=
  ⟨⟨by decide, by decide, by decide, by decide, by decide, by decide,
      by decide, by decide⟩,
    c1_finalize_twice_one_job dbOne envOne 7 (some 9) (some 3) "cb"
      sessionOne (by decide) (by decide) (by decide) (by decide) (by decide)
      (by decide) (by decide) (by decide)⟩

/-- The chat's active session can never be a terminal session (ids
unique): active and terminal statuses are disjoint. -/
theorem active_ne_terminal (db : Db) (c : String) (a s : Session)
    (hfind : getActiveSession db c = some a) (hs : s ∈ db.sessions)
    (hterm : isTerminalStatus s.status = true)
    (hN : (db.sessions.map Session.id).Nodup) : s.id ≠ a.id := by
  intro h
  have hmem := (getActiveSession_mem db c a hfind).1
  have hact := (getActiveSession_mem db c a hfind).2.2
  have heq : s = a := List.inj_on_of_nodup_map hN hs hmem h
  rw [← heq] at hact
  cases hst : s.status <;> rw [hst] at hact hterm <;> simp_all [isActiveStatus,
    isTerminalStatus]

/-- startSessionGeneration touches only the session row with the given
id: any other row survives unchanged. -/
theorem mem_startSessionGeneration (db : Db) (env : WebhookEnv)
    (sid c : String) (uid : Option String) (s : Session)
    (hs : s ∈ db.sessions) (hne : s.id ≠ sid) :
    s ∈ (startSessionGeneration db env sid c uid).1.sessions := by
  unfold startSessionGeneration
  split
  · exact hs
  · try dsimp only
    split
    · exact hs
    · split
      · exact hs
      · try dsimp only
        split
        · exact mem_after_keyed_update Session.id sid _ _ s
            (mem_after_keyed_update Session.id sid _ _ s hs hne) hne
        · split
          · exact mem_after_keyed_update Session.id sid _ _ s hs hne
          · exact mem_after_keyed_update Session.id sid _ _ s hs hne

/-- The Done action never changes a terminal session (ids unique). -/
theorem mem_handleSessionDone (db : Db) (env : WebhookEnv) (chatId : Nat)
    (userId : Option Nat) (messageId : Option Nat) (cid : String)
    (s : Session) (hs : s ∈ db.sessions)
    (hterm : isTerminalStatus s.status = true)
    (hN : (db.sessions.map Session.id).Nodup) :
    s ∈ (handleSessionDone db env chatId userId messageId cid).1.sessions := by
  unfold handleSessionDone
  try dsimp only
  cases hfind : getActiveSession db (toString chatId) with
  | none => exact hs
  | some a =>
    have hne : s.id ≠ a.id := active_ne_terminal db (toString chatId) a s
      hfind hs hterm hN
    try dsimp only
    split
    · exact hs
    · split
      · exact hs
      · have h1 : s ∈ (updateSessionStatusDb db a.id
            SessionStatus.processing none none none).sessions :=
          mem_after_keyed_update Session.id a.id _ db.sessions s hs hne
        have h2 : s ∈ (startSessionGeneration
            (updateSessionStatusDb db a.id SessionStatus.processing
              none none none) env a.id (toString chatId)
            (userId.map toString)).1.sessions :=
          mem_startSessionGeneration _ env a.id (toString chatId)
            (userId.map toString) s h1 hne
        split
        · exact h2
        · exact mem_after_keyed_update Session.id a.id _ _ s h2 hne

/-- The Cancel button action never changes a terminal session. -/
theorem mem_handleSessionCancel (db : Db) (chatId : Nat)
    (messageId : Option Nat) (cid : String) (s : Session)
    (hs : s ∈ db.sessions) (hterm : isTerminalStatus s.status = true)
    (hN : (db.sessions.map Session.id).Nodup) :
    s ∈ (handleSessionCancel db chatId messageId cid).1.sessions := by
  unfold handleSessionCancel
  try dsimp only
  cases hfind : getActiveSession db (toString chatId) with
  | none => exact hs
  | some a =>
    have hne : s.id ≠ a.id := active_ne_terminal db (toString chatId) a s
      hfind hs hterm hN
    exact mem_after_keyed_update Session.id a.id _ db.sessions s hs hne

/-- The /cancel command never changes a terminal session. -/
theorem mem_handleCancelCommand (db : Db) (chatId : Nat) (s : Session)
    (hs : s ∈ db.sessions) (hterm : isTerminalStatus s.status = true)
    (hN : (db.sessions.map Session.id).Nodup) :
    s ∈ (handleCancelCommand db chatId).1.sessions := by
  unfold handleCancelCommand
  try dsimp only
  cases hfind : getActiveSession db (toString chatId) with
  | none => exact hs
  | some a =>
    have hne : s.id ≠ a.id := active_ne_terminal db (toString chatId) a s
      hfind hs hterm hN
    exact mem_after_keyed_update Session.id a.id _ db.sessions s hs hne

/-- Image ingest never changes a terminal session: it only appends to
the active session, or creates a fresh session under a new id. -/
theorem mem_handleImageUpload (db : Db) (env : WebhookEnv) (chatId : Nat)
    (userId : Option String) (messageId : Nat) (imageInput : ImageInput)
    (s : Session) (hs : s ∈ db.sessions)
    (hterm : isTerminalStatus s.status = true)
    (hN : (db.sessions.map Session.id).Nodup)
    (hfresh : env.newSessionId ∉ db.sessions.map Session.id) :
    s ∈ (handleImageUpload db env chatId userId messageId
      imageInput).1.sessions := by
  unfold handleImageUpload
  try dsimp only
  cases hfind : getActiveSession db (toString chatId) with
  | some a =>
    have hne : s.id ≠ a.id := active_ne_terminal db (toString chatId) a s
      hfind hs hterm hN
    try dsimp only
    repeat' split
    all_goals
      first
      | exact hs
      | ((rename addImageToSessionDb _ _ _ = Except.ok _ => heq);
         exact addImageToSessionDb_ok_mem _ _ _ _ s heq hs hne)
  | none =>
    have hbase : s ∈ (createSessionDb db env.newSessionId (toString chatId)
        userId).1.sessions := by
      rw [createSessionDb_sessions]
      exact List.mem_append_left _ hs
    have hne : s.id ≠ env.newSessionId := fun h =>
      hfresh (h ▸ List.mem_map_of_mem Session.id hs)
    try dsimp only
    repeat' split
    all_goals
      first
      | exact hbase
      | ((rename addImageToSessionDb _ _ _ = Except.ok _ => heq);
         exact addImageToSessionDb_ok_mem _ _ _ _ s heq hbase hne)

/-- Button presses never change a terminal session. -/
theorem mem_handleCallbackQuery (db : Db) (env : WebhookEnv)
    (q : TgCallbackQuery) (s : Session) (hs : s ∈ db.sessions)
    (hterm : isTerminalStatus s.status = true)
    (hN : (db.sessions.map Session.id).Nodup) :
    s ∈ (handleCallbackQuery db env q).1.sessions := by
  unfold handleCallbackQuery
  repeat' split
  all_goals
    first
    | exact hs
    | exact mem_handleSessionDone _ env _ _ _ _ s hs hterm hN
    | exact mem_handleSessionCancel _ _ _ _ s hs hterm hN

/-- The message arm of the dispatcher never changes a terminal
session. -/
theorem mem_messageArm (db : Db) (env : WebhookEnv)
    (message : Option TgMessage) (chatIdOpt userIdOpt : Option Nat)
    (s : Session) (hs : s ∈ db.sessions)
    (hterm : isTerminalStatus s.status = true)
    (hN : (db.sessions.map Session.id).Nodup)
    (hfresh : env.newSessionId ∉ db.sessions.map Session.id) :
    s ∈ (messageArm db env message chatIdOpt userIdOpt).db.sessions := by
  unfold messageArm
  repeat' (first | split | (dsimp only; split))
  all_goals
    first
    | exact hs
    | exact mem_handleCancelCommand _ _ s hs hterm hN
    | exact mem_handleImageUpload _ env _ _ _ _ s hs hterm hN hfresh

/-- C3 amended, webhook side: no webhook operation (start, cancel,
tips, finalize, image ingest) ever changes a session whose status is
terminal - they act only on active sessions and on freshly created
ones. -/
theorem c3_terminal_session_unchanged_by_webhook (db : Db)
    (env : WebhookEnv) (method : String) (u : TgUpdate) (s : Session)
    (hmem : s ∈ db.sessions) (hterm : isTerminalStatus s.status = true)
    (hN : (db.sessions.map Session.id).Nodup)
    (hfresh : env.newSessionId ∉ db.sessions.map Session.id) :
    s ∈ (webhookHandler db env method u).db.sessions := by
  unfold webhookHandler
  repeat' (first | split | (dsimp only; split))
  all_goals
    first
    | exact hmem
    | exact mem_handleCallbackQuery _ env _ s hmem hterm hN
    | exact mem_handleCallbackQuery _ env _ s
        (by rw [markUpdateProcessedDb_sessions]; exact hmem) hterm
        (by rw [markUpdateProcessedDb_sessions]; exact hN)
    | exact mem_messageArm _ env _ _ _ s hmem hterm hN hfresh
    | exact mem_messageArm _ env _ _ _ s
        (by rw [markUpdateProcessedDb_sessions]; exact hmem) hterm
        (by rw [markUpdateProcessedDb_sessions]; exact hN)
        (by rw [markUpdateProcessedDb_sessions]; exact hfresh)

/-- Witness for the amended C3 at a concrete cancelled session. -/
theorem c3_terminal_session_unchanged_by_webhook_witness :
    (sessionTerm ∈ dbTerm.sessions ∧
      isTerminalStatus sessionTerm.status = true ∧
      (dbTerm.sessions.map Session.id).Nodup ∧
      envOne.newSessionId ∉ dbTerm.sessions.map Session.id) ∧
    sessionTerm ∈ (webhookHandler dbTerm envOne "POST" startUpdate).db.sessions :=
  ⟨⟨by decide, by decide, by decide, by decide⟩,
    c3_terminal_session_unchanged_by_webhook dbTerm envOne "POST"
      startUpdate sessionTerm (by decide) (by decide) (by decide) (by decide)⟩
